import Mathlib

/-!
Shallow embedding of `src/lib/FlightTasks/tasks/FlightTaskAutoLine.cpp` (PX4 Firmware):
an autonomous waypoint-following trajectory generator for a multirotor.

Modelling conventions:
* `float` scalars are modelled as real numbers (`ℝ`); IEEE rounding is out of scope.
* A `NAN` setpoint component ("do not constrain this axis") is modelled as `Option ℝ`
  with `none` standing for NaN; the input `yaw_wp`, which may be NaN, likewise.
* `matrix::Vector2f` / `Vector3f` become `Vec2` / `Vec3` records; `v.length()` is
  `Real.sqrt` of the dot product with itself, exactly as in the matrix library.
* `powf` applied to a real exponent is modelled with `Real.rpow`.
* The mutable members of `FlightTaskAutoLine` that the task reads or writes are
  collected in `LineState`; each C++ member function becomes a function from the
  old state (plus the per-tick inputs and the parameter snapshot) to the new state.
* `PX4_WARN` inside `_generateXYsetpoints` is modelled as a `Bool` result component
  that is `true` exactly when the warning line executes.
-/

set_option maxHeartbeats 1600000

open scoped Classical

noncomputable section

/-- SIGMA_SINGLE_OP from the C++ source. -/
def sigmaSingle : ℝ := 0.000001

/-- SIGMA_NORM from the C++ source. -/
def sigmaNorm : ℝ := 0.001

/-- Two-component float vector (horizontal projections). -/
@[ext] structure Vec2 where
  x : ℝ
  y : ℝ

/-- Three-component float vector (NED). -/
@[ext] structure Vec3 where
  x : ℝ
  y : ℝ
  z : ℝ

def Vec2.add (a b : Vec2) : Vec2 := ⟨a.x + b.x, a.y + b.y⟩

def Vec2.sub (a b : Vec2) : Vec2 := ⟨a.x - b.x, a.y - b.y⟩

def Vec2.smul (c : ℝ) (v : Vec2) : Vec2 := ⟨c * v.x, c * v.y⟩

/-- Dot product, written `a * b` on `Vector2f` in the C++ source. -/
def Vec2.dot (a b : Vec2) : ℝ := a.x * b.x + a.y * b.y

/-- `Vector2f::length()`. -/
def Vec2.norm (v : Vec2) : ℝ := Real.sqrt (v.x * v.x + v.y * v.y)

def Vec2.zero : Vec2 := ⟨0, 0⟩

def Vec3.sub (a b : Vec3) : Vec3 := ⟨a.x - b.x, a.y - b.y, a.z - b.z⟩

/-- `Vector3f::length()`. -/
def Vec3.norm (v : Vec3) : ℝ := Real.sqrt (v.x * v.x + v.y * v.y + v.z * v.z)

/-- First two components, `Vector2f(&v(0))` in the C++ source. -/
def Vec3.xy (v : Vec3) : Vec2 := ⟨v.x, v.y⟩

/-- Modelled from the spec: `matrix::Vector2f::unit_or_zero` (the matrix library is
not part of this repository snapshot).  The spec requires `unit(v)` to return the
zero vector when `|v| < ε_single = 1e-6` and the normalized vector otherwise. -/
def Vec2.unitOrZero (v : Vec2) : Vec2 :=
  if Vec2.norm v < sigmaSingle then Vec2.zero else Vec2.smul (1 / Vec2.norm v) v

/-- Modelled from the spec: `math::constrain` of mathlib.h (not part of this
repository snapshot): clamp `v` into `[lo, hi]`, the low bound winning. -/
def constrain (v lo hi : ℝ) : ℝ := if v < lo then lo else if hi < v then hi else v

/-- Modelled from the spec: `math::radians` of mathlib.h (not part of this
repository snapshot): degrees to radians. -/
def radians (d : ℝ) : ℝ := d * Real.pi / 180

/-- Modelled from the spec: `_wrap_pi` (geo library, not part of this repository
snapshot): wrap an angle into one period around zero. -/
def wrapPi (x : ℝ) : ℝ := x - 2 * Real.pi * Int.floor ((x + Real.pi) / (2 * Real.pi))

/-- Waypoint type of the current triplet (`WaypointType` enum). -/
inductive WaypointType where
  | idle
  | land
  | loiter
  | position
  | takeoff
  | velocity
deriving DecidableEq

/-- Internal segment-selector state (`FlightTaskAutoLine::State`). -/
inductive SelState where
  | none
  | target_behind
  | previous_infront
  | offtrack
deriving DecidableEq

/-- Mutable members of `FlightTaskAutoLine` read or written by the task. -/
@[ext] structure LineState where
  vel_sp_xy : Vec2
  pos_sp_xy : Vec2
  vel_sp_z : ℝ
  pos_sp_z : Option ℝ
  destination : Vec3
  origin : Vec3
  speed_at_target : ℝ
  current_state : SelState

/-- Per-tick inputs pulled from the estimator and the mission layer. -/
structure Inputs where
  position : Vec3
  velocity : Vec3
  yaw : ℝ
  prev_wp : Vec3
  target : Vec3
  next_wp : Vec3
  /-- `_yaw_wp`; `none` models NaN. -/
  yaw_wp : Option ℝ
  /-- `_type` in the C++ source. -/
  wtype : WaypointType
  mc_cruise_speed : ℝ
  deltatime : ℝ

/-- Read-only parameter snapshot. -/
structure Params where
  land_speed : ℝ
  vel_max_up : ℝ
  vel_max_down : ℝ
  acc_max_xy : ℝ
  acc_xy : ℝ
  acc_max_up : ℝ
  acc_max_down : ℝ
  cruise_speed_90 : ℝ
  nav_rad : ℝ
  mis_yaw_error : ℝ

/-- Vector of optional (possibly-NaN) setpoint components. -/
@[ext] structure OptVec3 where
  x : Option ℝ
  y : Option ℝ
  z : Option ℝ

/-- Setpoints pushed to the downstream position controller. -/
@[ext] structure Setpoints where
  pos_sp : OptVec3
  vel_sp : OptVec3
  yaw_sp : Option ℝ
  thrust_sp : Option Vec3

/-! ### Corner-speed evaluator: `_getVelocityFromAngle` -/

/-- `min_cruise_speed` in `_getVelocityFromAngle`. -/
def minCruiseSpeed : ℝ := 0

/-- Coefficient `a` of the exponential fit `a * b ^ angle + c`, computed from the
cruise speed and the (already adjusted) middle cruise speed. -/
def expA (mc m : ℝ) : ℝ :=
  -((m - mc) * (m - mc)) / (2 * m - mc - minCruiseSpeed)

/-- Coefficient `c` of the exponential fit. -/
def expC (mc m : ℝ) : ℝ := mc - expA mc m

/-- Coefficient `b` of the exponential fit. -/
def expB (mc m : ℝ) : ℝ := (m - expC mc m) / expA mc m

/-- The two clamps applied to `middle_cruise_speed` before the fit: push it above
`min_cruise + SIGMA_NORM`, and if it is not below `mc_cruise - SIGMA_NORM` replace
it by the midpoint. -/
def midAdjusted (mc m : ℝ) : ℝ :=
  if mc - (if m - minCruiseSpeed < sigmaNorm then minCruiseSpeed + sigmaNorm else m) < sigmaNorm
  then (mc + minCruiseSpeed) * 0.5
  else if m - minCruiseSpeed < sigmaNorm then minCruiseSpeed + sigmaNorm else m

/-- Linear branch `speed_close = slope * angle + mc_cruise`. -/
def speedCloseLinear (mc angle : ℝ) : ℝ :=
  (-(mc - minCruiseSpeed) / 2) * angle + mc

/-- Guard choosing the linear fit: middle speed is within `SIGMA_NORM` below the
midpoint (or anywhere above it). -/
def useLinearApproach (mc m2 : ℝ) : Prop :=
  (mc + minCruiseSpeed) * 0.5 - m2 < sigmaNorm

/-- `FlightTaskAutoLine::_getVelocityFromAngle`, the corner-speed evaluator. -/
def getVelocityFromAngle (mcCruiseSpeed cruiseSpeed90 angle : ℝ) : ℝ :=
  if mcCruiseSpeed - minCruiseSpeed < sigmaNorm then mcCruiseSpeed
  else if useLinearApproach mcCruiseSpeed (midAdjusted mcCruiseSpeed cruiseSpeed90) then
    constrain (speedCloseLinear mcCruiseSpeed angle) minCruiseSpeed mcCruiseSpeed
  else
    constrain
      (expA mcCruiseSpeed (midAdjusted mcCruiseSpeed cruiseSpeed90)
          * expB mcCruiseSpeed (midAdjusted mcCruiseSpeed cruiseSpeed90) ^ angle
        + expC mcCruiseSpeed (midAdjusted mcCruiseSpeed cruiseSpeed90))
      minCruiseSpeed mcCruiseSpeed

/-! ### Segment selector: `_updateInternalWaypoints` -/

/-- `u_prev_to_target`, the horizontal unit vector of the mission leg. -/
def uPrevToTarget (inp : Inputs) : Vec2 :=
  Vec2.unitOrZero (Vec3.xy (Vec3.sub inp.target inp.prev_wp))

/-- Predicate of the first selector branch: the target is behind the vehicle. -/
def targetBehindCond (inp : Inputs) : Prop :=
  Vec2.dot (uPrevToTarget inp) (Vec3.xy (Vec3.sub inp.target inp.position)) < 0

/-- Predicate of the second selector branch: the vehicle is more than one cruise
speed in front of the previous waypoint. -/
def previousInfrontCond (inp : Inputs) : Prop :=
  Vec2.dot (uPrevToTarget inp) (Vec3.xy (Vec3.sub inp.position inp.prev_wp)) < 0 ∧
    Vec2.norm (Vec3.xy (Vec3.sub inp.position inp.prev_wp)) > inp.mc_cruise_speed

/-- Foot of the perpendicular from the vehicle onto the previous-to-target line. -/
def closestPtOnPrevTarget (inp : Inputs) : Vec2 :=
  Vec2.add (Vec3.xy inp.prev_wp)
    (Vec2.smul (Vec2.dot (Vec3.xy (Vec3.sub inp.position inp.prev_wp)) (uPrevToTarget inp))
      (uPrevToTarget inp))

/-- Predicate of the third selector branch: the vehicle is more than one cruise
speed off track. -/
def offtrackCond (inp : Inputs) : Prop :=
  Vec2.norm (Vec2.sub (Vec3.xy inp.position) (closestPtOnPrevTarget inp)) > inp.mc_cruise_speed

/-- Body shared (verbatim in the C++ source) by the four entry actions of
`_updateInternalWaypoints`: install the new internal segment and selector state,
then recompute `_speed_at_target` from the corner angle when the segment is long
enough and a next waypoint exists. -/
def enterState (inp : Inputs) (p : Params) (s : LineState) (dest orig : Vec3)
    (st : SelState) : LineState :=
  let spd :=
    if Vec2.norm (Vec3.xy (Vec3.sub dest inp.next_wp)) > 0.001 ∧
        Vec2.norm (Vec3.xy (Vec3.sub dest orig)) > p.nav_rad then
      getVelocityFromAngle inp.mc_cruise_speed p.cruise_speed_90
        (Vec2.dot (Vec2.unitOrZero (Vec3.xy (Vec3.sub dest orig)))
            (Vec2.unitOrZero (Vec3.xy (Vec3.sub dest inp.next_wp))) + 1)
    else 0
  { s with destination := dest, origin := orig, current_state := st, speed_at_target := spd }

/-- `FlightTaskAutoLine::_updateInternalWaypoints`, the segment selector. -/
def updateInternalWaypoints (inp : Inputs) (p : Params) (s : LineState) : LineState :=
  if targetBehindCond inp then
    if s.current_state ≠ SelState.target_behind then
      enterState inp p s inp.target inp.position SelState.target_behind
    else s
  else if previousInfrontCond inp then
    if s.current_state ≠ SelState.previous_infront then
      enterState inp p s inp.prev_wp inp.position SelState.previous_infront
    else s
  else if offtrackCond inp then
    if s.current_state ≠ SelState.offtrack then
      enterState inp p s
        ⟨(closestPtOnPrevTarget inp).x, (closestPtOnPrevTarget inp).y, inp.target.z⟩
        inp.position SelState.offtrack
    else s
  else
    if Vec3.norm (Vec3.sub inp.target s.destination) > 0.01 then
      enterState inp p s inp.target inp.prev_wp SelState.none
    else s

/-! ### XY profile generator: `_generateXYsetpoints` -/

/-- `has_reached_altitude` in `_generateXYsetpoints`. -/
def hasReachedAltitude (inp : Inputs) (p : Params) (s : LineState) : Prop :=
  |s.destination.z - inp.position.z| < p.nav_rad

/-- Position-lock condition of `_generateXYsetpoints`: the position setpoint is
within the acceptance radius of the target and either no pass-through speed is
wanted or the altitude is not reached yet. -/
def xyLockCond (inp : Inputs) (p : Params) (s : LineState) : Prop :=
  (s.speed_at_target < 0.001 ∧
      Vec2.norm (Vec2.sub (Vec3.xy inp.target) s.pos_sp_xy) < p.nav_rad) ∨
  (¬ hasReachedAltitude inp p s ∧
      Vec2.norm (Vec2.sub (Vec3.xy inp.target) s.pos_sp_xy) < p.nav_rad)

/-- `target_threshold` of `_generateXYsetpoints`: 1.5 cruise speeds, enlarged to
half the segment length when that is bigger. -/
def xyTargetThreshold (inp : Inputs) (s : LineState) : ℝ :=
  if 1.5 * inp.mc_cruise_speed < 0.5 * Vec2.norm (Vec3.xy (Vec3.sub s.destination s.origin))
  then 0.5 * Vec2.norm (Vec3.xy (Vec3.sub s.destination s.origin))
  else 1.5 * inp.mc_cruise_speed

/-- Decelerate-branch guard of `_generateXYsetpoints`: the vehicle is closer to the
destination than the target threshold. -/
def xyDecelCond (inp : Inputs) (s : LineState) : Prop :=
  Vec2.norm (Vec3.xy (Vec3.sub s.destination inp.position)) < xyTargetThreshold inp s

/-- `FlightTaskAutoLine::_generateXYsetpoints`.  The `Bool` component is `true`
exactly when the `PX4_WARN("Yaw Waypoint not finite")` statement executes. -/
def generateXYsetpoints (inp : Inputs) (p : Params) (s : LineState) : LineState × Bool :=
  if xyLockCond inp p s then
    ({ s with pos_sp_xy := Vec3.xy s.destination, vel_sp_xy := Vec2.zero }, false)
  else
    let u_prev_to_dest := Vec2.unitOrZero (Vec3.xy (Vec3.sub s.destination s.origin))
    let closest_pt := Vec2.add (Vec3.xy s.origin)
      (Vec2.smul (Vec2.dot (Vec3.xy (Vec3.sub inp.position s.origin)) u_prev_to_dest)
        u_prev_to_dest)
    let closest_to_dest := Vec3.xy (Vec3.sub s.destination inp.position)
    let speed_sp_prev_track := max (Vec2.dot s.vel_sp_xy u_prev_to_dest) 0
    let threshold_max := 1.5 * inp.mc_cruise_speed
    let target_threshold := xyTargetThreshold inp s
    let speed_threshold :=
      if threshold_max > p.nav_rad then
        (inp.mc_cruise_speed - s.speed_at_target) / (threshold_max - p.nav_rad)
            * (target_threshold - p.nav_rad) + s.speed_at_target
      else inp.mc_cruise_speed
    if xyDecelCond inp s then
      let spd_tgt := if ¬ hasReachedAltitude inp p s then 0 else s.speed_at_target
      let acceptance_radius := if spd_tgt < 0.01 then 0 else p.nav_rad
      let speed_sp_1 :=
        if target_threshold - acceptance_radius ≥ sigmaNorm then
          (speed_threshold - spd_tgt) / (target_threshold - acceptance_radius)
              * (Vec2.norm closest_to_dest - acceptance_radius) + spd_tgt
        else spd_tgt
      let speed_sp_2 :=
        if speed_sp_prev_track < speed_sp_1 ∧ speed_sp_1 * speed_sp_prev_track > 0 ∧
            speed_sp_prev_track > spd_tgt
        then speed_sp_prev_track else speed_sp_1
      ({ s with speed_at_target := spd_tgt,
                pos_sp_xy := closest_pt,
                vel_sp_xy := Vec2.smul (constrain speed_sp_2 0 inp.mc_cruise_speed)
                  u_prev_to_dest }, false)
    else
      let acc_track := (inp.mc_cruise_speed - speed_sp_prev_track) / inp.deltatime
      let yaw_diff :=
        match inp.yaw_wp with
        | some yw => wrapPi (yw - inp.yaw)
        | Option.none => 0
      let acc_max := if |yaw_diff| > radians p.mis_yaw_error then 0.5 else p.acc_xy
      let speed_sp :=
        if acc_track > acc_max then acc_max * inp.deltatime + speed_sp_prev_track
        else inp.mc_cruise_speed
      ({ s with pos_sp_xy := closest_pt,
                vel_sp_xy := Vec2.smul (constrain speed_sp 0 inp.mc_cruise_speed)
                  u_prev_to_dest },
        inp.yaw_wp.isSome)

/-! ### Z profile generator: `_generateAltitudeSetpoints` -/

/-- Guard of the moving branch of `_generateAltitudeSetpoints`: the segment has a
vertical extent and the target altitude is not yet reached. -/
def altMovingCond (inp : Inputs) (s : LineState) : Prop :=
  |s.destination.z - s.origin.z| > sigmaNorm ∧ |inp.position.z - s.destination.z| > 0.1

/-- `FlightTaskAutoLine::_generateAltitudeSetpoints`. -/
def generateAltitudeSetpoints (inp : Inputs) (p : Params) (s : LineState) : LineState :=
  if altMovingCond inp s then
    let dist := |s.destination.z - s.origin.z|
    let dist_to_prev := |inp.position.z - s.origin.z|
    let dist_to_target := |s.destination.z - inp.position.z|
    let flying_upward := s.destination.z < inp.position.z
    let speed_sp_0 := if flying_upward then p.vel_max_up else p.vel_max_down
    let target_threshold_0 := speed_sp_0 * 1.5
    let is_2_target_threshold := dist ≥ 2 * target_threshold_0
    let min_vel : ℝ := 0.2
    let slope := (speed_sp_0 - min_vel) / target_threshold_0
    let target_threshold := if is_2_target_threshold then target_threshold_0 else dist * 0.5
    let speed_sp_1 :=
      if is_2_target_threshold then speed_sp_0 else slope * (dist * 0.5) + min_vel
    let speed_sp_2 :=
      if dist_to_target < target_threshold then slope * dist_to_target + min_vel
      else if dist_to_prev < target_threshold then
        let acc_max := if flying_upward then p.acc_max_up * 0.5 else p.acc_max_down * 0.5
        if (speed_sp_1 - |s.vel_sp_z|) / inp.deltatime > acc_max then
          acc_max * inp.deltatime + |s.vel_sp_z|
        else speed_sp_1
      else speed_sp_1
    let speed_sp_3 := if speed_sp_2 < 0 then 0 else speed_sp_2
    { s with vel_sp_z := if flying_upward then -speed_sp_3 else speed_sp_3,
             pos_sp_z := Option.none }
  else
    { s with vel_sp_z := 0, pos_sp_z := some inp.target.z }

/-! ### Reset, mode dispatch: `_reset`, `update` -/

/-- `FlightTaskAutoLine::_reset`: set the internal setpoints to the current vehicle
state and the internal segment to the mission leg.  `_current_state` is not touched. -/
def reset (inp : Inputs) (s : LineState) : LineState :=
  { vel_sp_xy := Vec3.xy inp.velocity
    pos_sp_xy := Vec3.xy inp.position
    vel_sp_z := inp.velocity.z
    pos_sp_z := some inp.position.z
    destination := inp.target
    origin := inp.prev_wp
    speed_at_target := 0
    current_state := s.current_state }

/-- `FlightTaskAutoLine::_generateSetpoints` (the loiter/position pipeline):
segment selection, then the Z profile, then the XY profile, then emit. -/
def generateSetpoints (inp : Inputs) (p : Params) (s : LineState) (sp : Setpoints) :
    LineState × Setpoints × Bool :=
  let s1 := updateInternalWaypoints inp p s
  let s2 := generateAltitudeSetpoints inp p s1
  let r := generateXYsetpoints inp p s2
  (r.1,
    { sp with
      pos_sp := ⟨some r.1.pos_sp_xy.x, some r.1.pos_sp_xy.y, r.1.pos_sp_z⟩
      vel_sp := ⟨some r.1.vel_sp_xy.x, some r.1.vel_sp_xy.y, some r.1.vel_sp_z⟩ },
    r.2)

/-- `FlightTaskAutoLine::update`: dispatch on the waypoint type, then set the yaw
setpoint from the triplet unconditionally. -/
def update (inp : Inputs) (p : Params) (s : LineState) (sp : Setpoints) :
    LineState × Setpoints × Bool :=
  let r :=
    match inp.wtype with
    | WaypointType.idle =>
        (reset inp s, { sp with thrust_sp := some ⟨0, 0, 0⟩ }, false)
    | WaypointType.land =>
        (reset inp s,
          { sp with
            pos_sp := ⟨some inp.target.x, some inp.target.y, Option.none⟩
            vel_sp := ⟨Option.none, Option.none, some p.land_speed⟩ }, false)
    | WaypointType.loiter => generateSetpoints inp p s sp
    | WaypointType.position => generateSetpoints inp p s sp
    | WaypointType.takeoff =>
        (reset inp s,
          { sp with pos_sp := ⟨some inp.target.x, some inp.target.y, some inp.target.z⟩ },
          false)
    | WaypointType.velocity =>
        let v := Vec2.unitOrZero (Vec3.xy inp.velocity)
        (reset inp s,
          { sp with
            pos_sp := ⟨Option.none, Option.none, some inp.position.z⟩
            vel_sp := ⟨some (v.x * inp.mc_cruise_speed), some (v.y * inp.mc_cruise_speed),
              Option.none⟩ }, false)
  (r.1, { r.2.1 with yaw_sp := inp.yaw_wp }, r.2.2)

/-! ### Concrete scenarios used by the claim theorems

Field order of `Inputs`: position, velocity, yaw, prev_wp, target, next_wp, yaw_wp,
wtype, mc_cruise_speed, deltatime.  Field order of `LineState`: vel_sp_xy,
pos_sp_xy, vel_sp_z, pos_sp_z, destination, origin, speed_at_target,
current_state.  Field order of `Params`: land_speed, vel_max_up, vel_max_down,
acc_max_xy, acc_xy, acc_max_up, acc_max_down, cruise_speed_90, nav_rad,
mis_yaw_error. -/

/-- Standard parameter snapshot used by the concrete scenarios (the spec's
scenario values: `nav_acc_rad = 0.5`, `cruise_90 = 3`, `acc_hor = 3`,
`mis_yaw_err = 12`). -/
def pstd : Params := ⟨7/10, 3, 3, 10, 3, 2, 2, 3, 1/2, 12⟩

/-- Empty (all unset) previously emitted setpoints. -/
def sp0 : Setpoints :=
  ⟨⟨Option.none, Option.none, Option.none⟩, ⟨Option.none, Option.none, Option.none⟩,
    Option.none, Option.none⟩

/-- Scenario for C3: vehicle close to the destination horizontally (decelerate
branch) but 5 m below the target altitude, with a pass-through speed of 3 m/s. -/
def inpC3 : Inputs :=
  ⟨⟨9, 0, 0⟩, ⟨0, 0, 0⟩, 0, ⟨0, 0, 0⟩, ⟨10, 0, 5⟩, ⟨10, 0, 5⟩, some 0,
    WaypointType.position, 5, 1/50⟩

/-- Internal state for the C3 scenario. -/
def sC3 : LineState :=
  ⟨⟨0, 0⟩, ⟨9, 0⟩, 0, some 0, ⟨10, 0, 5⟩, ⟨0, 0, 0⟩, 3, SelState.none⟩

/-- Scenario for C4: the vehicle has passed the target (target-behind predicate
holds) and the selector is already resident in `target_behind`. -/
def inpC4 : Inputs :=
  ⟨⟨2, 0, 0⟩, ⟨0, 0, 0⟩, 0, ⟨0, 0, 0⟩, ⟨1, 0, 0⟩, ⟨2, 0, 0⟩, some 0,
    WaypointType.position, 5, 1/50⟩

/-- Internal state for the C4 scenario. -/
def sC4 : LineState :=
  ⟨⟨0, 0⟩, ⟨0, 0⟩, 0, some 0, ⟨1, 0, 0⟩, ⟨0, 0, 0⟩, 0, SelState.target_behind⟩

/-- Degenerate all-zero scenario with cruise speed 1, used for C5. -/
def inpC5 : Inputs :=
  ⟨⟨0, 0, 0⟩, ⟨0, 0, 0⟩, 0, ⟨0, 0, 0⟩, ⟨0, 0, 0⟩, ⟨0, 0, 0⟩, some 0,
    WaypointType.position, 1, 1/50⟩

/-- Internal state for the C5 scenario. -/
def sC5 : LineState :=
  ⟨⟨0, 0⟩, ⟨0, 0⟩, 0, some 0, ⟨0, 0, 0⟩, ⟨0, 0, 0⟩, 0, SelState.none⟩

/-- Parameters for the C6 counterexample: both vertical speed limits are 0.1 m/s,
below the Z profile's hard-coded `min_vel = 0.2`. -/
def pC6 : Params := ⟨7/10, 1/10, 1/10, 10, 3, 2, 2, 3, 1/2, 12⟩

/-- Scenario for C6: descending, 0.12 m above the target altitude. -/
def inpC6 : Inputs :=
  ⟨⟨0, 0, 22/25⟩, ⟨0, 0, 0⟩, 0, ⟨0, 0, 0⟩, ⟨0, 0, 1⟩, ⟨0, 0, 1⟩, some 0,
    WaypointType.position, 5, 1/50⟩

/-- Internal state for the C6 scenario. -/
def sC6 : LineState :=
  ⟨⟨0, 0⟩, ⟨0, 0⟩, 0, some 0, ⟨0, 0, 1⟩, ⟨0, 0, 0⟩, 0, SelState.none⟩

/-- Scenario for the C7 counterexample: the vehicle is at the target horizontally
(XY locks) but 9 m above the target altitude, so the Z profile is still
accelerating and changes `vel_sp_z` from tick to tick. -/
def inpC7 : Inputs :=
  ⟨⟨0, 0, 1⟩, ⟨0, 0, 0⟩, 0, ⟨0, 0, 0⟩, ⟨0, 0, 10⟩, ⟨0, 0, 10⟩, some 0,
    WaypointType.position, 5, 1/50⟩

/-- Internal state for the C7 counterexample. -/
def sC7 : LineState :=
  ⟨⟨0, 0⟩, ⟨0, 0⟩, 0, some 1, ⟨0, 0, 10⟩, ⟨0, 0, 0⟩, 0, SelState.none⟩

/-- The internal state after the first C7 tick: the Z profile has ramped
`vel_sp_z` to 1/50 and the XY lock has latched. -/
def sC7mid : LineState :=
  ⟨Vec2.zero, ⟨0, 0⟩, 1/50, Option.none, ⟨0, 0, 10⟩, ⟨0, 0, 0⟩, 0, SelState.none⟩

/-- Scenario for the C7 witness: vehicle resting at the (degenerate) target, both
profiles arrived. -/
def inpC7w : Inputs :=
  ⟨⟨0, 0, 0⟩, ⟨0, 0, 0⟩, 0, ⟨0, 0, 0⟩, ⟨0, 0, 0⟩, ⟨0, 0, 0⟩, some 0,
    WaypointType.position, 5, 1/50⟩

/-- Internal state for the C7 witness. -/
def sC7w : LineState :=
  ⟨⟨0, 0⟩, ⟨0, 0⟩, 0, some 0, ⟨0, 0, 0⟩, ⟨0, 0, 0⟩, 0, SelState.none⟩

/-- Scenario for C8: a land-type waypoint with distinctive state values. -/
def inpC8 : Inputs :=
  ⟨⟨1, 2, 3⟩, ⟨4, 5, 6⟩, 0, ⟨0, 0, 0⟩, ⟨7, 8, 9⟩, ⟨0, 0, 0⟩, some 0,
    WaypointType.land, 5, 1/50⟩

/-- Internal state for the C8 scenario. -/
def sC8 : LineState :=
  ⟨⟨1, 1⟩, ⟨2, 2⟩, 1, some 1, ⟨1, 1, 1⟩, ⟨0, 0, 0⟩, 2, SelState.offtrack⟩

/-- Scenario for C9: far from the destination (accelerate branch) with a finite
`yaw_wp = 0`. -/
def inpC9 : Inputs :=
  ⟨⟨10, 0, 0⟩, ⟨0, 0, 0⟩, 0, ⟨0, 0, 0⟩, ⟨100, 0, 0⟩, ⟨200, 0, 0⟩, some 0,
    WaypointType.position, 5, 1/50⟩

/-- The C9 scenario with `yaw_wp` NaN. -/
def inpC9n : Inputs :=
  ⟨⟨10, 0, 0⟩, ⟨0, 0, 0⟩, 0, ⟨0, 0, 0⟩, ⟨100, 0, 0⟩, ⟨200, 0, 0⟩, Option.none,
    WaypointType.position, 5, 1/50⟩

/-- Internal state for the C9 scenario. -/
def sC9 : LineState :=
  ⟨⟨0, 0⟩, ⟨10, 0⟩, 0, some 0, ⟨100, 0, 0⟩, ⟨0, 0, 0⟩, 0, SelState.none⟩

/-- Scenario for the C10 witness: vehicle on the segment midway between the
previous waypoint and the target. -/
def inpC10 : Inputs :=
  ⟨⟨5, 0, 0⟩, ⟨1, 0, 0⟩, 0, ⟨0, 0, 0⟩, ⟨10, 0, 0⟩, ⟨20, 0, 0⟩, some 0,
    WaypointType.position, 5, 1/50⟩

/-- The C10 scenario with the vehicle beyond the target (target-behind holds). -/
def inpC10b : Inputs :=
  ⟨⟨20, 0, 0⟩, ⟨1, 0, 0⟩, 0, ⟨0, 0, 0⟩, ⟨10, 0, 0⟩, ⟨20, 0, 0⟩, some 0,
    WaypointType.position, 5, 1/50⟩

/-- Internal state for the C10 witness: a retained `target_behind` recovery state
with internal segment values that differ from the mission leg. -/
def sC10 : LineState :=
  ⟨⟨0, 0⟩, ⟨0, 0⟩, 0, some 0, ⟨3, 3, 3⟩, ⟨1, 1, 1⟩, 2, SelState.target_behind⟩

/-! ### General helper lemmas -/

lemma sigmaNorm_pos : (0:ℝ) < sigmaNorm := by norm_num [sigmaNorm]

lemma constrain_eq_self {v lo hi : ℝ} (h1 : lo ≤ v) (h2 : v ≤ hi) :
    constrain v lo hi = v := by
  unfold constrain
  rw [if_neg (not_lt.2 h1), if_neg (not_lt.2 h2)]

lemma constrain_nonneg {v hi : ℝ} (h : 0 ≤ hi) : 0 ≤ constrain v 0 hi := by
  unfold constrain
  split_ifs with h1 h2 <;> linarith

lemma constrain_le_hi {v lo hi : ℝ} (h : lo ≤ hi) : constrain v lo hi ≤ hi := by
  unfold constrain
  split_ifs with h1 h2 <;> linarith

lemma constrain_mono {x y lo hi : ℝ} (hlh : lo ≤ hi) (hxy : x ≤ y) :
    constrain x lo hi ≤ constrain y lo hi := by
  unfold constrain
  split_ifs <;> linarith

lemma Vec2.norm_nonneg (v : Vec2) : 0 ≤ Vec2.norm v := Real.sqrt_nonneg _

lemma Vec2.norm_smul (c : ℝ) (v : Vec2) :
    Vec2.norm (Vec2.smul c v) = |c| * Vec2.norm v := by
  unfold Vec2.norm Vec2.smul
  rw [show c * v.x * (c * v.x) + c * v.y * (c * v.y) = c ^ 2 * (v.x * v.x + v.y * v.y)
      by ring]
  rw [Real.sqrt_mul (sq_nonneg c), Real.sqrt_sq_eq_abs]

lemma Vec2.norm_zero_vec : Vec2.norm Vec2.zero = 0 := by
  simp [Vec2.norm, Vec2.zero]

lemma Vec2.norm_unitOrZero_le_one (v : Vec2) : Vec2.norm (Vec2.unitOrZero v) ≤ 1 := by
  unfold Vec2.unitOrZero
  split_ifs with h
  · rw [Vec2.norm_zero_vec]
    norm_num
  · push_neg at h
    have hv : 0 < Vec2.norm v :=
      lt_of_lt_of_le (by norm_num [sigmaSingle]) h
    rw [Vec2.norm_smul, abs_of_nonneg (by positivity), one_div,
      inv_mul_cancel₀ (ne_of_gt hv)]

lemma Vec3.norm_sub_self (a : Vec3) : Vec3.norm (Vec3.sub a a) = 0 := by
  simp [Vec3.norm, Vec3.sub]

/-- Norm of a vector lying on the first axis. -/
lemma Vec2.norm_axis (a : ℝ) : Vec2.norm ⟨a, 0⟩ = |a| := by
  unfold Vec2.norm
  simpa using Real.sqrt_mul_self_eq_abs a

/-! ### Corner-speed evaluator lemmas (C1, C2) -/

lemma gvfa_linear_case (mc m angle : ℝ) (hg : ¬ (mc - minCruiseSpeed < sigmaNorm))
    (hlin : useLinearApproach mc (midAdjusted mc m)) :
    getVelocityFromAngle mc m angle =
      constrain (speedCloseLinear mc angle) minCruiseSpeed mc := by
  unfold getVelocityFromAngle
  rw [if_neg hg, if_pos hlin]

lemma gvfa_exp_case (mc m angle : ℝ) (hg : ¬ (mc - minCruiseSpeed < sigmaNorm))
    (hlin : ¬ useLinearApproach mc (midAdjusted mc m)) :
    getVelocityFromAngle mc m angle =
      constrain (expA mc (midAdjusted mc m) * expB mc (midAdjusted mc m) ^ angle
          + expC mc (midAdjusted mc m)) minCruiseSpeed mc := by
  unfold getVelocityFromAngle
  rw [if_neg hg, if_neg hlin]

lemma midAdjusted_eq_self {mc m : ℝ} (h1 : ¬ (m - minCruiseSpeed < sigmaNorm))
    (h2 : ¬ (mc - m < sigmaNorm)) : midAdjusted mc m = m := by
  unfold midAdjusted
  simp only [if_neg h1]
  rw [if_neg h2]

/-- Either the clamps replaced the middle speed by the midpoint (which forces the
linear branch), or the adjusted middle speed keeps `SIGMA_NORM` clearance from
both ends. -/
lemma midAdjusted_cases (mc m : ℝ) :
    midAdjusted mc m = (mc + minCruiseSpeed) * 0.5 ∨
      (sigmaNorm ≤ midAdjusted mc m - minCruiseSpeed ∧
        sigmaNorm ≤ mc - midAdjusted mc m) := by
  unfold midAdjusted
  by_cases hi : m - minCruiseSpeed < sigmaNorm
  · simp only [if_pos hi]
    by_cases ho : mc - (minCruiseSpeed + sigmaNorm) < sigmaNorm
    · rw [if_pos ho]
      exact Or.inl rfl
    · rw [if_neg ho]
      push_neg at ho
      right
      constructor
      · rw [show minCruiseSpeed + sigmaNorm - minCruiseSpeed = sigmaNorm by ring]
      · linarith
  · simp only [if_neg hi]
    by_cases ho : mc - m < sigmaNorm
    · rw [if_pos ho]
      exact Or.inl rfl
    · rw [if_neg ho]
      push_neg at hi ho
      exact Or.inr ⟨hi, ho⟩

lemma expA_pos {mc m : ℝ} (h1 : 2 * m - mc < 0) (h2 : m ≠ mc) : 0 < expA mc m := by
  unfold expA minCruiseSpeed
  apply div_pos_of_neg_of_neg
  · have hne : m - mc ≠ 0 := sub_ne_zero.2 h2
    have := mul_self_pos.2 hne
    linarith
  · linarith

lemma exp_fit_at_zero (mc m : ℝ) :
    expA mc m * expB mc m ^ (0:ℝ) + expC mc m = mc := by
  rw [Real.rpow_zero]
  unfold expC
  ring

lemma exp_fit_at_one (mc m : ℝ) (ha : expA mc m ≠ 0) :
    expA mc m * expB mc m ^ (1:ℝ) + expC mc m = m := by
  rw [Real.rpow_one]
  unfold expB
  rw [mul_comm, div_mul_cancel₀ _ ha, sub_add_cancel]

lemma expA_val (mc m : ℝ) : expA mc m = -((m - mc) * (m - mc)) / (2 * m - mc) := by
  unfold expA minCruiseSpeed
  rw [sub_zero]

lemma expB_eq (mc m : ℝ) (h1 : 2 * m - mc < 0) (h2 : m ≠ mc) :
    expB mc m = m / (mc - m) := by
  have hA : 2 * m - mc ≠ 0 := ne_of_lt h1
  have hne : m - mc ≠ 0 := sub_ne_zero.2 h2
  have hcm : mc - m ≠ 0 := fun h => h2 (by linarith)
  have hnum : -((m - mc) * (m - mc)) ≠ 0 := by
    simp [mul_ne_zero hne hne]
  unfold expB expC
  rw [expA_val]
  rw [div_eq_div_iff (div_ne_zero hnum hA) hcm]
  field_simp
  ring

lemma exp_fit_at_two (mc m : ℝ) (h1 : 2 * m - mc < 0) (h2 : m ≠ mc) :
    expA mc m * expB mc m ^ (2:ℝ) + expC mc m = 0 := by
  have hA : 2 * m - mc ≠ 0 := ne_of_lt h1
  have hcm : mc - m ≠ 0 := fun h => h2 (by linarith)
  rw [Real.rpow_two, expB_eq mc m h1 h2]
  unfold expC
  rw [expA_val]
  field_simp
  ring

/-- Endpoint values of the corner-speed evaluator at integer angles, for a middle
cruise speed on the exponential side of the midpoint. -/
lemma corner_endpoints_aux (mc m : ℝ) (h1 : sigmaNorm ≤ m) (h2 : m ≤ mc / 2) :
    getVelocityFromAngle mc m 0 = mc ∧
    |getVelocityFromAngle mc m 1 - m| < sigmaNorm ∧
    getVelocityFromAngle mc m 2 = 0 := by
  have hσ : (0:ℝ) < sigmaNorm := sigmaNorm_pos
  have hm0 : 0 < m := lt_of_lt_of_le hσ h1
  have hg : ¬ (mc - minCruiseSpeed < sigmaNorm) := by
    unfold minCruiseSpeed
    push_neg
    linarith
  have hm1 : ¬ (m - minCruiseSpeed < sigmaNorm) := by
    unfold minCruiseSpeed
    push_neg
    linarith
  have hm2 : ¬ (mc - m < sigmaNorm) := by
    push_neg
    linarith
  have hmid : midAdjusted mc m = m := midAdjusted_eq_self hm1 hm2
  by_cases hlin : useLinearApproach mc (midAdjusted mc m)
  · have hl : mc * 0.5 - m < sigmaNorm := by
      have := hlin
      unfold useLinearApproach minCruiseSpeed at this
      rw [hmid] at this
      linarith
    refine ⟨?_, ?_, ?_⟩
    · rw [gvfa_linear_case mc m 0 hg hlin]
      unfold speedCloseLinear minCruiseSpeed
      rw [show -(mc - 0) / 2 * 0 + mc = mc by ring]
      exact constrain_eq_self (by linarith) le_rfl
    · rw [gvfa_linear_case mc m 1 hg hlin]
      unfold speedCloseLinear minCruiseSpeed
      rw [show -(mc - 0) / 2 * 1 + mc = mc / 2 by ring]
      rw [constrain_eq_self (by linarith) (by linarith)]
      rw [abs_of_nonneg (by linarith)]
      linarith
    · rw [gvfa_linear_case mc m 2 hg hlin]
      unfold speedCloseLinear minCruiseSpeed
      rw [show -(mc - 0) / 2 * 2 + mc = 0 by ring]
      exact constrain_eq_self le_rfl (by linarith)
  · have hl : sigmaNorm ≤ mc * 0.5 - m := by
      have := hlin
      unfold useLinearApproach minCruiseSpeed at this
      rw [hmid] at this
      push_neg at this
      linarith
    have hbm : 2 * m - mc < 0 := by linarith
    have hne : m ≠ mc := by intro h; rw [h] at h2; linarith
    have ha : expA mc m ≠ 0 := ne_of_gt (expA_pos hbm hne)
    refine ⟨?_, ?_, ?_⟩
    · rw [gvfa_exp_case mc m 0 hg hlin, hmid, exp_fit_at_zero]
      unfold minCruiseSpeed
      exact constrain_eq_self (by linarith) le_rfl
    · rw [gvfa_exp_case mc m 1 hg hlin, hmid, exp_fit_at_one mc m ha]
      unfold minCruiseSpeed
      rw [constrain_eq_self (by linarith) (by linarith)]
      simpa using hσ
    · rw [gvfa_exp_case mc m 2 hg hlin, hmid, exp_fit_at_two mc m hbm hne]
      unfold minCruiseSpeed
      exact constrain_eq_self le_rfl (by linarith)

/-- The corner-speed evaluator is antitone in the angle, for any parameters. -/
lemma corner_mono_aux (mc m x y : ℝ) (hxy : x ≤ y) :
    getVelocityFromAngle mc m y ≤ getVelocityFromAngle mc m x := by
  by_cases hg : mc - minCruiseSpeed < sigmaNorm
  · unfold getVelocityFromAngle
    rw [if_pos hg, if_pos hg]
  · have hmc0 : 0 < mc := by
      unfold minCruiseSpeed at hg
      push_neg at hg
      have := sigmaNorm_pos
      linarith
    by_cases hlin : useLinearApproach mc (midAdjusted mc m)
    · rw [gvfa_linear_case mc m x hg hlin, gvfa_linear_case mc m y hg hlin]
      apply constrain_mono (by unfold minCruiseSpeed; linarith)
      unfold speedCloseLinear minCruiseSpeed
      nlinarith
    · rcases midAdjusted_cases mc m with hmid | ⟨hlo, hhi⟩
      · exfalso
        apply hlin
        unfold useLinearApproach
        rw [hmid]
        have := sigmaNorm_pos
        linarith
      · have hσ := sigmaNorm_pos
        have hm2pos : 0 < midAdjusted mc m := by
          unfold minCruiseSpeed at hlo
          linarith
        have hhalf : sigmaNorm ≤ (mc + minCruiseSpeed) * 0.5 - midAdjusted mc m := by
          unfold useLinearApproach at hlin
          push_neg at hlin
          exact hlin
        have hbm : 2 * midAdjusted mc m - mc < 0 := by
          unfold minCruiseSpeed at hhalf
          linarith
        have hne : midAdjusted mc m ≠ mc := by
          intro h
          rw [h] at hhi
          linarith
        have ha : 0 < expA mc (midAdjusted mc m) := expA_pos hbm hne
        have hb : expB mc (midAdjusted mc m) = midAdjusted mc m / (mc - midAdjusted mc m) :=
          expB_eq mc (midAdjusted mc m) hbm hne
        have hb0 : 0 < expB mc (midAdjusted mc m) := by
          rw [hb]
          apply div_pos hm2pos
          linarith
        have hb1 : expB mc (midAdjusted mc m) ≤ 1 := by
          rw [hb]
          rw [div_le_one (by linarith)]
          linarith
        rw [gvfa_exp_case mc m x hg hlin, gvfa_exp_case mc m y hg hlin]
        apply constrain_mono (by unfold minCruiseSpeed; linarith)
        have hpow := Real.rpow_le_rpow_of_exponent_ge hb0 hb1 hxy
        nlinarith

/-- C1: as stated, the spec's fixed points are inverted relative to the code:
at the claim's own instance `mc_cruise = 5 > mid = 2 > 0`, the evaluator returns
the full cruise speed at angle 0, not the claimed `min_cruise = 0`. -/
theorem corner_speed_endpoints_cex :
    (5:ℝ) > 2 ∧ (2:ℝ) > 0 ∧
      getVelocityFromAngle 5 2 0 = 5 ∧ getVelocityFromAngle 5 2 0 ≠ 0 := by
  have h := corner_endpoints_aux 5 2 (by norm_num [sigmaNorm]) (by norm_num)
  refine ⟨by norm_num, by norm_num, h.1, ?_⟩
  rw [h.1]
  norm_num

/-- C1 (amended): for `ε_norm ≤ mid ≤ mc_cruise/2` the corner-speed evaluator
satisfies the three fixed points with the endpoints swapped relative to the
claim: `corner_speed(0) = mc_cruise`, `corner_speed(1) = mid` within `ε_norm`,
and `corner_speed(2) = 0 (= min_cruise)`. -/
theorem corner_speed_endpoints (mc m : ℝ) (h1 : sigmaNorm ≤ m) (h2 : m ≤ mc / 2) :
    getVelocityFromAngle mc m 0 = mc ∧
    |getVelocityFromAngle mc m 1 - m| < sigmaNorm ∧
    getVelocityFromAngle mc m 2 = 0 :=
  corner_endpoints_aux mc m h1 h2

/-- Witness for C1 at `mc_cruise = 5`, `mid = 2`. -/
theorem corner_speed_endpoints_witness :
    sigmaNorm ≤ (2:ℝ) ∧ (2:ℝ) ≤ 5 / 2 ∧
      (getVelocityFromAngle 5 2 0 = 5 ∧
        |getVelocityFromAngle 5 2 1 - 2| < sigmaNorm ∧
        getVelocityFromAngle 5 2 2 = 0) :=
  ⟨by norm_num [sigmaNorm], by norm_num,
    corner_speed_endpoints 5 2 (by norm_num [sigmaNorm]) (by norm_num)⟩

/-- C2: as stated, monotone non-decreasing fails: at `mc_cruise = 5 > mid = 2 > 0`
the evaluator strictly decreases from angle 0 to angle 2. -/
theorem corner_speed_monotone_cex :
    (5:ℝ) > 2 ∧ (2:ℝ) > 0 ∧ (0:ℝ) ≤ 0 ∧ (0:ℝ) ≤ 2 ∧ (2:ℝ) ≤ 2 ∧
      getVelocityFromAngle 5 2 2 < getVelocityFromAngle 5 2 0 := by
  have h := corner_endpoints_aux 5 2 (by norm_num [sigmaNorm]) (by norm_num)
  refine ⟨by norm_num, by norm_num, le_rfl, by norm_num, le_rfl, ?_⟩
  rw [h.1, h.2.2]
  norm_num

/-- C2 (amended): for fixed parameters with `mc_cruise > mid > 0` the corner-speed
evaluator is monotonically non-increasing (not non-decreasing) in the angle over
`[0, 2]`. -/
theorem corner_speed_antitone (mc m x y : ℝ) (hcm : mc > m) (hm : m > 0)
    (hx : 0 ≤ x) (hxy : x ≤ y) (hy : y ≤ 2) :
    getVelocityFromAngle mc m y ≤ getVelocityFromAngle mc m x :=
  corner_mono_aux mc m x y hxy

/-- Witness for C2 at `mc_cruise = 5`, `mid = 2`, angles 0 and 2. -/
theorem corner_speed_antitone_witness :
    (5:ℝ) > 2 ∧ (2:ℝ) > 0 ∧ (0:ℝ) ≤ 0 ∧ (0:ℝ) ≤ 2 ∧ (2:ℝ) ≤ 2 ∧
      getVelocityFromAngle 5 2 2 ≤ getVelocityFromAngle 5 2 0 :=
  ⟨by norm_num, by norm_num, le_rfl, by norm_num, le_rfl,
    corner_speed_antitone 5 2 0 2 (by norm_num) (by norm_num) le_rfl (by norm_num)
      le_rfl⟩

/-! ### XY profile lemmas (C3, C5) -/

/-- Concrete branch facts for the C3 scenario: no lock, decelerate branch,
altitude not reached. -/
lemma c3_facts :
    ¬ xyLockCond inpC3 pstd sC3 ∧ xyDecelCond inpC3 sC3 ∧
      ¬ hasReachedAltitude inpC3 pstd sC3 := by
  have hra : ¬ hasReachedAltitude inpC3 pstd sC3 := by
    unfold hasReachedAltitude inpC3 pstd sC3
    norm_num
  refine ⟨?_, ?_, hra⟩
  · intro hlock
    have hval : Vec2.norm (Vec2.sub (Vec3.xy inpC3.target) sC3.pos_sp_xy) = 1 := by
      unfold inpC3 sC3
      simp only [Vec3.xy, Vec2.sub]
      rw [show Vec2.mk (10 - 9 : ℝ) (0 - 0 : ℝ) = ⟨1, 0⟩ by norm_num, Vec2.norm_axis]
      norm_num
    rcases hlock with ⟨h1, h2⟩ | ⟨h1, h2⟩
    · rw [show sC3.speed_at_target = 3 from rfl] at h1
      norm_num at h1
    · rw [hval, show pstd.nav_rad = 1/2 from rfl] at h2
      norm_num at h2
  · unfold xyDecelCond xyTargetThreshold inpC3 sC3
    simp only [Vec3.xy, Vec3.sub]
    rw [show Vec2.mk (10 - 9 : ℝ) (0 - 0 : ℝ) = ⟨1, 0⟩ by norm_num,
      show Vec2.mk (10 - 0 : ℝ) (0 - 0 : ℝ) = ⟨10, 0⟩ by norm_num,
      Vec2.norm_axis, Vec2.norm_axis]
    norm_num

/-- C3: as stated, false on the code: in the decelerate branch with the altitude
not reached, `_generateXYsetpoints` assigns the member `_speed_at_target = 0`, so
the persisted state changes from 3 to 0 on this tick. -/
theorem xy_decel_speed_at_target_cex :
    ¬ xyLockCond inpC3 pstd sC3 ∧ xyDecelCond inpC3 sC3 ∧
      ¬ hasReachedAltitude inpC3 pstd sC3 ∧
      sC3.speed_at_target = 3 ∧
      (generateXYsetpoints inpC3 pstd sC3).1.speed_at_target = 0 := by
  obtain ⟨h1, h2, h3⟩ := c3_facts
  refine ⟨h1, h2, h3, rfl, ?_⟩
  unfold generateXYsetpoints
  rw [if_neg h1, if_pos h2, if_pos h3]

/-- C3 (amended): the overwrite is persistent, not tick-local: whenever the XY
generator runs its decelerate branch with the altitude not yet reached, the
member `speed_at_target` is 0 in the state the generator returns. -/
theorem xy_decel_overwrites_speed_at_target (inp : Inputs) (p : Params) (s : LineState)
    (hl : ¬ xyLockCond inp p s) (hd : xyDecelCond inp s)
    (ha : ¬ hasReachedAltitude inp p s) :
    (generateXYsetpoints inp p s).1.speed_at_target = 0 := by
  unfold generateXYsetpoints
  rw [if_neg hl, if_pos hd, if_pos ha]

/-- Witness for C3 on the concrete scenario. -/
theorem xy_decel_overwrites_speed_at_target_witness :
    ¬ xyLockCond inpC3 pstd sC3 ∧ xyDecelCond inpC3 sC3 ∧
      ¬ hasReachedAltitude inpC3 pstd sC3 ∧
      (generateXYsetpoints inpC3 pstd sC3).1.speed_at_target = 0 := by
  obtain ⟨h1, h2, h3⟩ := c3_facts
  exact ⟨h1, h2, h3, xy_decel_overwrites_speed_at_target inpC3 pstd sC3 h1 h2 h3⟩

/-- The XY generator always returns either the zero velocity (lock branch) or a
clamped track speed times the unit-or-zero segment direction. -/
lemma gxy_vel_cases (inp : Inputs) (p : Params) (s : LineState) :
    (generateXYsetpoints inp p s).1.vel_sp_xy = Vec2.zero ∨
      ∃ x, (generateXYsetpoints inp p s).1.vel_sp_xy =
        Vec2.smul (constrain x 0 inp.mc_cruise_speed)
          (Vec2.unitOrZero (Vec3.xy (Vec3.sub s.destination s.origin))) := by
  unfold generateXYsetpoints
  by_cases h1 : xyLockCond inp p s
  · rw [if_pos h1]
    exact Or.inl rfl
  · rw [if_neg h1]
    by_cases h2 : xyDecelCond inp s
    · simp only [if_pos h2]
      exact Or.inr ⟨_, rfl⟩
    · simp only [if_neg h2]
      exact Or.inr ⟨_, rfl⟩

lemma norm_smul_constrain_le {C : ℝ} (hC : 0 ≤ C) (x : ℝ) {u : Vec2}
    (hu : Vec2.norm u ≤ 1) :
    Vec2.norm (Vec2.smul (constrain x 0 C) u) ≤ C := by
  rw [Vec2.norm_smul]
  have h1 : 0 ≤ constrain x 0 C := constrain_nonneg hC
  rw [abs_of_nonneg h1]
  calc constrain x 0 C * Vec2.norm u ≤ constrain x 0 C * 1 :=
        mul_le_mul_of_nonneg_left hu h1
    _ = constrain x 0 C := mul_one _
    _ ≤ C := constrain_le_hi hC

/-- C5: with a non-negative commanded cruise speed the XY profile generator's
velocity setpoint has magnitude in `[0, mc_cruise_speed]` in both branches. -/
theorem xy_speed_bounded (inp : Inputs) (p : Params) (s : LineState)
    (hc : 0 ≤ inp.mc_cruise_speed) :
    0 ≤ Vec2.norm (generateXYsetpoints inp p s).1.vel_sp_xy ∧
      Vec2.norm (generateXYsetpoints inp p s).1.vel_sp_xy ≤ inp.mc_cruise_speed := by
  refine ⟨Vec2.norm_nonneg _, ?_⟩
  rcases gxy_vel_cases inp p s with h | ⟨x, h⟩
  · rw [h, Vec2.norm_zero_vec]
    exact hc
  · rw [h]
    exact norm_smul_constrain_le hc x (Vec2.norm_unitOrZero_le_one _)

/-- Witness for C5 on the degenerate scenario with cruise speed 1. -/
theorem xy_speed_bounded_witness :
    (0:ℝ) ≤ inpC5.mc_cruise_speed ∧
      (0 ≤ Vec2.norm (generateXYsetpoints inpC5 pstd sC5).1.vel_sp_xy ∧
        Vec2.norm (generateXYsetpoints inpC5 pstd sC5).1.vel_sp_xy ≤
          inpC5.mc_cruise_speed) :=
  ⟨by norm_num [inpC5], xy_speed_bounded inpC5 pstd sC5 (by norm_num [inpC5])⟩

/-! ### Segment-selector lemmas (C4) -/

/-- C4: when the first matching recovery predicate's state equals the resident
selector state, `_updateInternalWaypoints` leaves the whole state (in particular
origin, destination, speed_at_target, current_state) unchanged. -/
theorem selector_resident_noop (inp : Inputs) (p : Params) (s : LineState)
    (h : (targetBehindCond inp ∧ s.current_state = SelState.target_behind) ∨
      (¬ targetBehindCond inp ∧ previousInfrontCond inp ∧
        s.current_state = SelState.previous_infront) ∨
      (¬ targetBehindCond inp ∧ ¬ previousInfrontCond inp ∧ offtrackCond inp ∧
        s.current_state = SelState.offtrack)) :
    updateInternalWaypoints inp p s = s := by
  unfold updateInternalWaypoints
  rcases h with ⟨h1, h2⟩ | ⟨h1, h2, h3⟩ | ⟨h1, h2, h3, h4⟩
  · rw [if_pos h1, if_neg (by simp [h2])]
  · rw [if_neg h1, if_pos h2, if_neg (by simp [h3])]
  · rw [if_neg h1, if_neg h2, if_pos h3, if_neg (by simp [h4])]

/-- Concrete fact: the target-behind predicate holds in the C4 scenario. -/
lemma c4_target_behind : targetBehindCond inpC4 := by
  unfold targetBehindCond uPrevToTarget inpC4
  simp only [Vec3.xy, Vec3.sub]
  rw [show Vec2.mk (1 - 0 : ℝ) (0 - 0 : ℝ) = ⟨1, 0⟩ by norm_num,
    show Vec2.mk (1 - 2 : ℝ) (0 - 0 : ℝ) = ⟨-1, 0⟩ by norm_num]
  unfold Vec2.unitOrZero
  rw [Vec2.norm_axis]
  rw [if_neg (by norm_num [sigmaSingle])]
  unfold Vec2.smul Vec2.dot
  norm_num

/-- Witness for C4: resident `target_behind` state, the predicate holds again,
and the selector is a no-op. -/
theorem selector_resident_noop_witness :
    (targetBehindCond inpC4 ∧ sC4.current_state = SelState.target_behind) ∧
      updateInternalWaypoints inpC4 pstd sC4 = sC4 :=
  ⟨⟨c4_target_behind, rfl⟩,
    selector_resident_noop inpC4 pstd sC4 (Or.inl ⟨c4_target_behind, rfl⟩)⟩

/-! ### Z profile lemmas (C6) -/

/-- C6: as stated, false: with legal non-negative parameters `vel_max_up =
vel_max_down = 0.1` (below the profile's hard-coded `min_vel = 0.2`) and the
vehicle 0.12 m above the target altitude, the decelerate branch emits
`vel_sp_z = 0.12 > 0.1`. -/
theorem z_speed_bounded_cex :
    (0:ℝ) ≤ pC6.vel_max_up ∧ (0:ℝ) ≤ pC6.vel_max_down ∧ (0:ℝ) ≤ pC6.acc_max_up ∧
      (0:ℝ) ≤ pC6.acc_max_down ∧ 0 < inpC6.deltatime ∧
      max pC6.vel_max_up pC6.vel_max_down <
        |(generateAltitudeSetpoints inpC6 pC6 sC6).vel_sp_z| := by
  have ha1 : |(3/25:ℝ)| = 3/25 := abs_of_nonneg (by norm_num)
  have ha2 : |(22/25:ℝ)| = 22/25 := abs_of_nonneg (by norm_num)
  have hm : altMovingCond inpC6 sC6 := by
    constructor
    · show |(1:ℝ) - 0| > sigmaNorm
      rw [sub_zero, abs_one]
      norm_num [sigmaNorm]
    · show |(22/25:ℝ) - 1| > 0.1
      rw [show (22/25:ℝ) - 1 = -(3/25) by norm_num, abs_neg, ha1]
      norm_num
  refine ⟨by norm_num [pC6], by norm_num [pC6], by norm_num [pC6], by norm_num [pC6],
    by norm_num [inpC6], ?_⟩
  unfold generateAltitudeSetpoints
  rw [if_pos hm]
  norm_num [inpC6, pC6, sC6, ha1, ha2]

/-- C6 (amended): the bound `|vel_sp_z| ≤ max(vel_max_up, vel_max_down)` holds
once both vertical speed limits are at least the profile's minimum velocity 0.2
(together with the claim's non-negative accelerations and positive delta_time). -/
theorem z_speed_bounded (inp : Inputs) (p : Params) (s : LineState)
    (hup : 0.2 ≤ p.vel_max_up) (hdn : 0.2 ≤ p.vel_max_down)
    (hau : 0 ≤ p.acc_max_up) (had : 0 ≤ p.acc_max_down)
    (hdt : 0 < inp.deltatime) :
    |(generateAltitudeSetpoints inp p s).vel_sp_z| ≤ max p.vel_max_up p.vel_max_down := by
  by_cases hm : altMovingCond inp s
  case neg =>
    unfold generateAltitudeSetpoints
    rw [if_neg hm]
    show |(0:ℝ)| ≤ _
    rw [abs_zero]
    exact le_trans (by linarith) (le_max_left _ _)
  case pos =>
    unfold generateAltitudeSetpoints
    rw [if_pos hm]
    lift_lets
    extract_lets dist dist_to_prev dist_to_target flying_upward speed_sp_0
      target_threshold_0 is_2_target_threshold min_vel slope target_threshold
      speed_sp_1 acc_max speed_sp_2 speed_sp_3
    have hmv : min_vel = 0.2 := rfl
    have h0 : speed_sp_0 = if flying_upward then p.vel_max_up else p.vel_max_down := rfl
    have ht0 : target_threshold_0 = speed_sp_0 * 1.5 := rfl
    have hsl : slope = (speed_sp_0 - min_vel) / target_threshold_0 := rfl
    have httd : target_threshold =
        if is_2_target_threshold then target_threshold_0 else dist * 0.5 := rfl
    have h1d : speed_sp_1 =
        if is_2_target_threshold then speed_sp_0
        else slope * (dist * 0.5) + min_vel := rfl
    have h2d : speed_sp_2 =
        if dist_to_target < target_threshold then slope * dist_to_target + min_vel
        else if dist_to_prev < target_threshold then
          (if (speed_sp_1 - |s.vel_sp_z|) / inp.deltatime > acc_max then
            acc_max * inp.deltatime + |s.vel_sp_z|
          else speed_sp_1)
        else speed_sp_1 := rfl
    have h3d : speed_sp_3 = if speed_sp_2 < 0 then 0 else speed_sp_2 := rfl
    have hi2d : is_2_target_threshold ↔ dist ≥ 2 * target_threshold_0 := Iff.rfl
    have hdist0 : (0:ℝ) ≤ dist := abs_nonneg _
    have hd2t0 : (0:ℝ) ≤ dist_to_target := abs_nonneg _
    show |if flying_upward then -speed_sp_3 else speed_sp_3| ≤ max p.vel_max_up p.vel_max_down
    clear_value dist dist_to_prev dist_to_target speed_sp_0 target_threshold_0
      min_vel slope target_threshold speed_sp_1 acc_max speed_sp_2 speed_sp_3
    have hv : min_vel ≤ speed_sp_0 := by
      rw [hmv, h0]
      split_ifs <;> assumption
    have hvmax : speed_sp_0 ≤ max p.vel_max_up p.vel_max_down := by
      rw [h0]
      split_ifs
      · exact le_max_left _ _
      · exact le_max_right _ _
    have hmv0 : (0:ℝ) < min_vel := by
      rw [hmv]
      norm_num
    have ht0pos : 0 < target_threshold_0 := by
      rw [ht0]
      linarith
    have hslope0 : 0 ≤ slope := by
      rw [hsl]
      exact div_nonneg (by linarith) (le_of_lt ht0pos)
    have hkey : slope * target_threshold_0 + min_vel = speed_sp_0 := by
      rw [hsl]
      field_simp
    have htt_le : target_threshold ≤ target_threshold_0 := by
      rw [httd]
      split_ifs with hi
      · exact le_rfl
      · have hi' : ¬ (dist ≥ 2 * target_threshold_0) := fun h => hi (hi2d.mpr h)
        push_neg at hi'
        linarith
    have h1up : speed_sp_1 ≤ speed_sp_0 := by
      rw [h1d]
      split_ifs with hi
      · exact le_rfl
      · have hi' : ¬ (dist ≥ 2 * target_threshold_0) := fun h => hi (hi2d.mpr h)
        push_neg at hi'
        have hmul : slope * (dist * 0.5) ≤ slope * target_threshold_0 :=
          mul_le_mul_of_nonneg_left (by linarith) hslope0
        linarith
    have h2up : speed_sp_2 ≤ speed_sp_0 := by
      rw [h2d]
      split_ifs with hdec hacc hcap
      · have hle : dist_to_target ≤ target_threshold_0 :=
          le_trans (le_of_lt hdec) htt_le
        have hmul : slope * dist_to_target ≤ slope * target_threshold_0 :=
          mul_le_mul_of_nonneg_left hle hslope0
        linarith
      · have hstep : acc_max * inp.deltatime < speed_sp_1 - |s.vel_sp_z| :=
          (lt_div_iff₀ hdt).mp hcap
        have habs : (0:ℝ) ≤ |s.vel_sp_z| := abs_nonneg _
        linarith
      · exact h1up
      · exact h1up
    have h3 : 0 ≤ speed_sp_3 ∧ speed_sp_3 ≤ speed_sp_0 := by
      rw [h3d]
      split_ifs with h
      · exact ⟨le_rfl, by linarith⟩
      · push_neg at h
        exact ⟨h, h2up⟩
    split_ifs with hf
    · rw [abs_neg, abs_of_nonneg h3.1]
      linarith [h3.2, hvmax]
    · rw [abs_of_nonneg h3.1]
      linarith [h3.2, hvmax]

/-- Witness for C6 with the standard parameters (both vertical limits 3 m/s). -/
theorem z_speed_bounded_witness :
    (0.2:ℝ) ≤ pstd.vel_max_up ∧ (0.2:ℝ) ≤ pstd.vel_max_down ∧
      (0:ℝ) ≤ pstd.acc_max_up ∧ (0:ℝ) ≤ pstd.acc_max_down ∧ 0 < inpC6.deltatime ∧
      |(generateAltitudeSetpoints inpC6 pstd sC6).vel_sp_z| ≤
        max pstd.vel_max_up pstd.vel_max_down :=
  ⟨by norm_num [pstd], by norm_num [pstd], by norm_num [pstd], by norm_num [pstd],
    by norm_num [inpC6],
    z_speed_bounded inpC6 pstd sC6 (by norm_num [pstd]) (by norm_num [pstd])
      (by norm_num [pstd]) (by norm_num [pstd]) (by norm_num [inpC6])⟩

/-! ### Lock idempotence (C7) -/

lemma Vec2.dot_zero_left (v : Vec2) : Vec2.dot Vec2.zero v = 0 := by
  simp [Vec2.dot, Vec2.zero]

lemma Vec2.dot_zero_right (v : Vec2) : Vec2.dot v Vec2.zero = 0 := by
  simp [Vec2.dot, Vec2.zero]

lemma Vec2.smul_zero_vec (c : ℝ) : Vec2.smul c Vec2.zero = Vec2.zero := by
  simp [Vec2.smul, Vec2.zero]

lemma Vec2.norm_sub_cancel (a : Vec2) : Vec2.norm (Vec2.sub a a) = 0 := by
  simp [Vec2.norm, Vec2.sub]

/-- Replacing `vel_sp_z`/`pos_sp_z` by their current values is the identity. -/
lemma state_upd_zpos (s : LineState) (vz : ℝ) (pz : Option ℝ)
    (h1 : s.vel_sp_z = vz) (h2 : s.pos_sp_z = pz) :
    ({ s with vel_sp_z := vz, pos_sp_z := pz } : LineState) = s := by
  cases s
  cases h1
  cases h2
  rfl

/-- Replacing `pos_sp_xy`/`vel_sp_xy` by their current values is the identity. -/
lemma state_upd_xy (s : LineState) (pxy vxy : Vec2)
    (h1 : s.pos_sp_xy = pxy) (h2 : s.vel_sp_xy = vxy) :
    ({ s with pos_sp_xy := pxy, vel_sp_xy := vxy } : LineState) = s := by
  cases s
  cases h1
  cases h2
  rfl

/-- Replacing the emitted setpoints by their current values is the identity. -/
lemma sp_upd_eq_self (sp : Setpoints) (a b : OptVec3) (c : Option ℝ)
    (h1 : sp.pos_sp = a) (h2 : sp.vel_sp = b) (h3 : sp.yaw_sp = c) :
    ({ sp with pos_sp := a, vel_sp := b, yaw_sp := c } : Setpoints) = sp := by
  cases sp
  cases h1
  cases h2
  cases h3
  rfl

/-- The arrived branch of the Z profile. -/
lemma gas_arrived (inp : Inputs) (p : Params) (s : LineState)
    (h : ¬ altMovingCond inp s) :
    generateAltitudeSetpoints inp p s =
      { s with vel_sp_z := 0, pos_sp_z := some inp.target.z } := by
  unfold generateAltitudeSetpoints
  rw [if_neg h]

/-- The lock branch of the XY profile. -/
lemma gxy_lock (inp : Inputs) (p : Params) (s : LineState) (h : xyLockCond inp p s) :
    generateXYsetpoints inp p s =
      ({ s with pos_sp_xy := Vec3.xy s.destination, vel_sp_xy := Vec2.zero }, false) := by
  unfold generateXYsetpoints
  rw [if_pos h]

/-- A second selector run is a no-op on any state that agrees with the first
run's result on `current_state` and `destination` (the only state the selector
branches on). -/
lemma uiw_noop (inp : Inputs) (p : Params) (s t : LineState)
    (hc : t.current_state = (updateInternalWaypoints inp p s).current_state)
    (hd : t.destination = (updateInternalWaypoints inp p s).destination) :
    updateInternalWaypoints inp p t = t := by
  unfold updateInternalWaypoints at hc hd ⊢
  by_cases h1 : targetBehindCond inp
  · rw [if_pos h1] at hc ⊢
    by_cases hs : s.current_state ≠ SelState.target_behind
    · rw [if_pos hs] at hc
      have hct : t.current_state = SelState.target_behind := by rw [hc]; rfl
      rw [if_neg (by simp [hct])]
    · rw [if_neg hs] at hc
      push_neg at hs
      have hct : t.current_state = SelState.target_behind := by rw [hc]; exact hs
      rw [if_neg (by simp [hct])]
  · rw [if_neg h1] at hc hd ⊢
    by_cases h2 : previousInfrontCond inp
    · rw [if_pos h2] at hc ⊢
      by_cases hs : s.current_state ≠ SelState.previous_infront
      · rw [if_pos hs] at hc
        have hct : t.current_state = SelState.previous_infront := by rw [hc]; rfl
        rw [if_neg (by simp [hct])]
      · rw [if_neg hs] at hc
        push_neg at hs
        have hct : t.current_state = SelState.previous_infront := by rw [hc]; exact hs
        rw [if_neg (by simp [hct])]
    · rw [if_neg h2] at hc hd ⊢
      by_cases h3 : offtrackCond inp
      · rw [if_pos h3] at hc ⊢
        by_cases hs : s.current_state ≠ SelState.offtrack
        · rw [if_pos hs] at hc
          have hct : t.current_state = SelState.offtrack := by rw [hc]; rfl
          rw [if_neg (by simp [hct])]
        · rw [if_neg hs] at hc
          push_neg at hs
          have hct : t.current_state = SelState.offtrack := by rw [hc]; exact hs
          rw [if_neg (by simp [hct])]
      · rw [if_neg h3] at hc hd ⊢
        by_cases hn : Vec3.norm (Vec3.sub inp.target s.destination) > 0.01
        · rw [if_pos hn] at hd
          have hdt : t.destination = inp.target := by rw [hd]; rfl
          have hz : Vec3.norm (Vec3.sub inp.target t.destination) = 0 := by
            rw [hdt]
            exact Vec3.norm_sub_self _
          rw [if_neg (by rw [hz]; norm_num)]
        · rw [if_neg hn] at hd
          have hz : Vec3.norm (Vec3.sub inp.target t.destination) =
              Vec3.norm (Vec3.sub inp.target s.destination) := by rw [hd]
          rw [if_neg (by rw [hz]; exact hn)]

/-- C7 (amended): the lock is idempotent once the Z profile has also arrived and
the internal destination lies horizontally within the acceptance radius of the
target: a second `update()` with unchanged inputs then emits identical
setpoints. -/
theorem lock_idempotent_update (inp : Inputs) (p : Params) (s : LineState)
    (sp : Setpoints)
    (hty : inp.wtype = WaypointType.loiter ∨ inp.wtype = WaypointType.position)
    (hz : ¬ altMovingCond inp (updateInternalWaypoints inp p s))
    (hl : xyLockCond inp p
      (generateAltitudeSetpoints inp p (updateInternalWaypoints inp p s)))
    (hd : Vec2.norm (Vec2.sub (Vec3.xy inp.target)
        (Vec3.xy (updateInternalWaypoints inp p s).destination)) < p.nav_rad) :
    (update inp p (update inp p s sp).1 (update inp p s sp).2.1).2.1 =
      (update inp p s sp).2.1 := by
  have hu : ∀ s' sp', update inp p s' sp' =
      ((generateSetpoints inp p s' sp').1,
        { (generateSetpoints inp p s' sp').2.1 with yaw_sp := inp.yaw_wp },
        (generateSetpoints inp p s' sp').2.2) := by
    intro s' sp'
    rcases hty with h | h <;> simp only [update, h]
  have hB := gas_arrived inp p (updateInternalWaypoints inp p s) hz
  have hl' : xyLockCond inp p
      ({ updateInternalWaypoints inp p s with
        vel_sp_z := 0, pos_sp_z := some inp.target.z }) := hB ▸ hl
  have hs1 : (update inp p s sp).1 =
      { updateInternalWaypoints inp p s with
        vel_sp_z := 0, pos_sp_z := some inp.target.z,
        pos_sp_xy := Vec3.xy (updateInternalWaypoints inp p s).destination,
        vel_sp_xy := Vec2.zero } := by
    rw [hu s sp]
    show (generateXYsetpoints inp p
      (generateAltitudeSetpoints inp p (updateInternalWaypoints inp p s))).1 = _
    rw [hB, gxy_lock _ _ _ hl']
  have huiw1 : updateInternalWaypoints inp p
      ({ updateInternalWaypoints inp p s with
        vel_sp_z := 0, pos_sp_z := some inp.target.z,
        pos_sp_xy := Vec3.xy (updateInternalWaypoints inp p s).destination,
        vel_sp_xy := Vec2.zero }) =
      ({ updateInternalWaypoints inp p s with
        vel_sp_z := 0, pos_sp_z := some inp.target.z,
        pos_sp_xy := Vec3.xy (updateInternalWaypoints inp p s).destination,
        vel_sp_xy := Vec2.zero }) :=
    uiw_noop inp p s _ rfl rfl
  have hz1 : ¬ altMovingCond inp
      ({ updateInternalWaypoints inp p s with
        vel_sp_z := 0, pos_sp_z := some inp.target.z,
        pos_sp_xy := Vec3.xy (updateInternalWaypoints inp p s).destination,
        vel_sp_xy := Vec2.zero }) := fun h => hz h
  have hl1 : xyLockCond inp p
      ({ updateInternalWaypoints inp p s with
        vel_sp_z := 0, pos_sp_z := some inp.target.z,
        pos_sp_xy := Vec3.xy (updateInternalWaypoints inp p s).destination,
        vel_sp_xy := Vec2.zero }) := by
    rcases hl' with ⟨h1, _⟩ | ⟨h1, _⟩
    · exact Or.inl ⟨h1, hd⟩
    · exact Or.inr ⟨h1, hd⟩
  have hfix : (generateXYsetpoints inp p (generateAltitudeSetpoints inp p
      (updateInternalWaypoints inp p
        ({ updateInternalWaypoints inp p s with
          vel_sp_z := 0, pos_sp_z := some inp.target.z,
          pos_sp_xy := Vec3.xy (updateInternalWaypoints inp p s).destination,
          vel_sp_xy := Vec2.zero })))).1 =
      ({ updateInternalWaypoints inp p s with
        vel_sp_z := 0, pos_sp_z := some inp.target.z,
        pos_sp_xy := Vec3.xy (updateInternalWaypoints inp p s).destination,
        vel_sp_xy := Vec2.zero }) := by
    rw [huiw1, gas_arrived inp p _ hz1,
      state_upd_zpos _ _ _ rfl rfl, gxy_lock inp p _ hl1]
  have hfix0 : (generateXYsetpoints inp p (generateAltitudeSetpoints inp p
      (updateInternalWaypoints inp p s))).1 =
      ({ updateInternalWaypoints inp p s with
        vel_sp_z := 0, pos_sp_z := some inp.target.z,
        pos_sp_xy := Vec3.xy (updateInternalWaypoints inp p s).destination,
        vel_sp_xy := Vec2.zero }) := by
    rw [hB, gxy_lock _ _ _ hl']
  have hsp1 : (update inp p s sp).2.1 =
      { sp with
        pos_sp := ⟨some ({ updateInternalWaypoints inp p s with
            vel_sp_z := 0, pos_sp_z := some inp.target.z,
            pos_sp_xy := Vec3.xy (updateInternalWaypoints inp p s).destination,
            vel_sp_xy := Vec2.zero } : LineState).pos_sp_xy.x,
          some ({ updateInternalWaypoints inp p s with
            vel_sp_z := 0, pos_sp_z := some inp.target.z,
            pos_sp_xy := Vec3.xy (updateInternalWaypoints inp p s).destination,
            vel_sp_xy := Vec2.zero } : LineState).pos_sp_xy.y,
          ({ updateInternalWaypoints inp p s with
            vel_sp_z := 0, pos_sp_z := some inp.target.z,
            pos_sp_xy := Vec3.xy (updateInternalWaypoints inp p s).destination,
            vel_sp_xy := Vec2.zero } : LineState).pos_sp_z⟩
        vel_sp := ⟨some ({ updateInternalWaypoints inp p s with
            vel_sp_z := 0, pos_sp_z := some inp.target.z,
            pos_sp_xy := Vec3.xy (updateInternalWaypoints inp p s).destination,
            vel_sp_xy := Vec2.zero } : LineState).vel_sp_xy.x,
          some ({ updateInternalWaypoints inp p s with
            vel_sp_z := 0, pos_sp_z := some inp.target.z,
            pos_sp_xy := Vec3.xy (updateInternalWaypoints inp p s).destination,
            vel_sp_xy := Vec2.zero } : LineState).vel_sp_xy.y,
          some ({ updateInternalWaypoints inp p s with
            vel_sp_z := 0, pos_sp_z := some inp.target.z,
            pos_sp_xy := Vec3.xy (updateInternalWaypoints inp p s).destination,
            vel_sp_xy := Vec2.zero } : LineState).vel_sp_z⟩
        yaw_sp := inp.yaw_wp } := by
    rw [hu s sp]
    show ({ (generateSetpoints inp p s sp).2.1 with yaw_sp := inp.yaw_wp } :
      Setpoints) = _
    have h0 : (generateSetpoints inp p s sp).2.1 =
        { sp with
          pos_sp := ⟨some (generateXYsetpoints inp p (generateAltitudeSetpoints inp p
              (updateInternalWaypoints inp p s))).1.pos_sp_xy.x,
            some (generateXYsetpoints inp p (generateAltitudeSetpoints inp p
              (updateInternalWaypoints inp p s))).1.pos_sp_xy.y,
            (generateXYsetpoints inp p (generateAltitudeSetpoints inp p
              (updateInternalWaypoints inp p s))).1.pos_sp_z⟩
          vel_sp := ⟨some (generateXYsetpoints inp p (generateAltitudeSetpoints inp p
              (updateInternalWaypoints inp p s))).1.vel_sp_xy.x,
            some (generateXYsetpoints inp p (generateAltitudeSetpoints inp p
              (updateInternalWaypoints inp p s))).1.vel_sp_xy.y,
            some (generateXYsetpoints inp p (generateAltitudeSetpoints inp p
              (updateInternalWaypoints inp p s))).1.vel_sp_z⟩ } := rfl
    rw [h0, hfix0]
  rw [hu ((update inp p s sp).1) ((update inp p s sp).2.1)]
  show ({ (generateSetpoints inp p (update inp p s sp).1
    (update inp p s sp).2.1).2.1 with yaw_sp := inp.yaw_wp } : Setpoints) = _
  have h0 : (generateSetpoints inp p (update inp p s sp).1
      (update inp p s sp).2.1).2.1 =
      { (update inp p s sp).2.1 with
        pos_sp := ⟨some (generateXYsetpoints inp p (generateAltitudeSetpoints inp p
            (updateInternalWaypoints inp p (update inp p s sp).1))).1.pos_sp_xy.x,
          some (generateXYsetpoints inp p (generateAltitudeSetpoints inp p
            (updateInternalWaypoints inp p (update inp p s sp).1))).1.pos_sp_xy.y,
          (generateXYsetpoints inp p (generateAltitudeSetpoints inp p
            (updateInternalWaypoints inp p (update inp p s sp).1))).1.pos_sp_z⟩
        vel_sp := ⟨some (generateXYsetpoints inp p (generateAltitudeSetpoints inp p
            (updateInternalWaypoints inp p (update inp p s sp).1))).1.vel_sp_xy.x,
          some (generateXYsetpoints inp p (generateAltitudeSetpoints inp p
            (updateInternalWaypoints inp p (update inp p s sp).1))).1.vel_sp_xy.y,
          some (generateXYsetpoints inp p (generateAltitudeSetpoints inp p
            (updateInternalWaypoints inp p (update inp p s sp).1))).1.vel_sp_z⟩ } :=
    rfl
  rw [h0, hs1, hfix, hsp1]

lemma Vec3.xy_sub (a b : Vec3) :
    Vec3.xy (Vec3.sub a b) = Vec2.sub (Vec3.xy a) (Vec3.xy b) := rfl

lemma Vec2.add_zero_zero : Vec2.add Vec2.zero Vec2.zero = Vec2.zero := by
  simp [Vec2.add, Vec2.zero]

/-- On a horizontally degenerate mission leg (previous waypoint, target, and
vehicle all at the horizontal origin) with an up-to-date destination, the
selector is a no-op. -/
lemma uiw_degenerate (inp : Inputs) (p : Params) (s : LineState)
    (hprev : Vec3.xy inp.prev_wp = Vec2.zero)
    (htgt : Vec3.xy inp.target = Vec2.zero)
    (hpos : Vec3.xy inp.position = Vec2.zero)
    (hcr : 0 ≤ inp.mc_cruise_speed)
    (hdest : Vec3.norm (Vec3.sub inp.target s.destination) ≤ 0.01) :
    updateInternalWaypoints inp p s = s := by
  have hu0 : uPrevToTarget inp = Vec2.zero := by
    unfold uPrevToTarget
    rw [Vec3.xy_sub, hprev, htgt]
    rw [show Vec2.sub Vec2.zero Vec2.zero = Vec2.zero by simp [Vec2.sub, Vec2.zero]]
    unfold Vec2.unitOrZero
    rw [if_pos (by rw [Vec2.norm_zero_vec]; norm_num [sigmaSingle])]
  have htb : ¬ targetBehindCond inp := by
    unfold targetBehindCond
    rw [hu0, Vec2.dot_zero_left]
    norm_num
  have hpi : ¬ previousInfrontCond inp := by
    unfold previousInfrontCond
    rw [hu0, Vec2.dot_zero_left]
    rintro ⟨h1, _⟩
    norm_num at h1
  have hot : ¬ offtrackCond inp := by
    unfold offtrackCond closestPtOnPrevTarget
    rw [hu0, Vec2.smul_zero_vec, hprev, hpos, Vec2.add_zero_zero, Vec2.norm_sub_cancel]
    exact not_lt.2 hcr
  unfold updateInternalWaypoints
  rw [if_neg htb, if_neg hpi, if_neg hot, if_neg (not_lt.2 hdest)]

/-- Branch facts for the first C7 tick. -/
lemma c7_tick1 :
    updateInternalWaypoints inpC7 pstd sC7 = sC7 ∧
      generateAltitudeSetpoints inpC7 pstd sC7 =
        { sC7 with vel_sp_z := 1/50, pos_sp_z := Option.none } ∧
      xyLockCond inpC7 pstd ({ sC7 with vel_sp_z := 1/50, pos_sp_z := Option.none }) := by
  have habs10 : |(10:ℝ)| = 10 := abs_of_nonneg (by norm_num)
  have habs9 : |(9:ℝ)| = 9 := abs_of_nonneg (by norm_num)
  have hmov1 : altMovingCond inpC7 sC7 := by
    constructor
    · show |(10:ℝ) - 0| > sigmaNorm
      rw [sub_zero, habs10]
      norm_num [sigmaNorm]
    · show |(1:ℝ) - 10| > 0.1
      rw [show (1:ℝ) - 10 = -9 by norm_num, abs_neg, habs9]
      norm_num
  refine ⟨?_, ?_, ?_⟩
  · refine uiw_degenerate inpC7 pstd sC7 rfl rfl rfl (by norm_num [inpC7]) ?_
    show Vec3.norm (Vec3.sub inpC7.target inpC7.target) ≤ 0.01
    rw [Vec3.norm_sub_self]
    norm_num
  · unfold generateAltitudeSetpoints
    rw [if_pos hmov1]
    norm_num [inpC7, pstd, sC7, habs10, habs9, abs_zero, abs_one]
  · refine Or.inl ⟨by show (0:ℝ) < 0.001; norm_num, ?_⟩
    show Vec2.norm (Vec2.sub (Vec3.xy inpC7.target) (Vec3.xy inpC7.target)) < pstd.nav_rad
    rw [Vec2.norm_sub_cancel]
    norm_num [pstd]

/-- Branch facts for the second C7 tick, starting from `sC7mid`. -/
lemma c7_tick2 :
    updateInternalWaypoints inpC7 pstd sC7mid = sC7mid ∧
      generateAltitudeSetpoints inpC7 pstd sC7mid =
        { sC7mid with vel_sp_z := 1/25, pos_sp_z := Option.none } ∧
      xyLockCond inpC7 pstd ({ sC7mid with vel_sp_z := 1/25, pos_sp_z := Option.none }) := by
  have habs10 : |(10:ℝ)| = 10 := abs_of_nonneg (by norm_num)
  have habs9 : |(9:ℝ)| = 9 := abs_of_nonneg (by norm_num)
  have habs50 : |(1/50:ℝ)| = 1/50 := abs_of_nonneg (by norm_num)
  have hmov2 : altMovingCond inpC7 sC7mid := by
    constructor
    · show |(10:ℝ) - 0| > sigmaNorm
      rw [sub_zero, habs10]
      norm_num [sigmaNorm]
    · show |(1:ℝ) - 10| > 0.1
      rw [show (1:ℝ) - 10 = -9 by norm_num, abs_neg, habs9]
      norm_num
  refine ⟨?_, ?_, ?_⟩
  · refine uiw_degenerate inpC7 pstd sC7mid rfl rfl rfl (by norm_num [inpC7]) ?_
    show Vec3.norm (Vec3.sub inpC7.target inpC7.target) ≤ 0.01
    rw [Vec3.norm_sub_self]
    norm_num
  · unfold generateAltitudeSetpoints
    rw [if_pos hmov2]
    norm_num [inpC7, pstd, sC7mid, habs10, habs9, abs_one, habs50]
  · refine Or.inl ⟨by show (0:ℝ) < 0.001; norm_num, ?_⟩
    show Vec2.norm (Vec2.sub (Vec3.xy inpC7.target) (Vec3.xy inpC7.target)) < pstd.nav_rad
    rw [Vec2.norm_sub_cancel]
    norm_num [pstd]

/-- C7: as stated, false: on the C7 scenario the first tick takes the XY lock
branch, yet the second identical tick emits a different `vel_sp.z` (1/25 vs
1/50), because the Z profile is still accelerating. -/
theorem lock_idempotent_cex :
    xyLockCond inpC7 pstd
      (generateAltitudeSetpoints inpC7 pstd (updateInternalWaypoints inpC7 pstd sC7)) ∧
    (update inpC7 pstd sC7 sp0).2.1.vel_sp.z = some (1/50 : ℝ) ∧
    (update inpC7 pstd (update inpC7 pstd sC7 sp0).1
      (update inpC7 pstd sC7 sp0).2.1).2.1.vel_sp.z = some (1/25 : ℝ) ∧
    (update inpC7 pstd (update inpC7 pstd sC7 sp0).1
      (update inpC7 pstd sC7 sp0).2.1).2.1 ≠ (update inpC7 pstd sC7 sp0).2.1 := by
  obtain ⟨huiw1, hg1, hlock1⟩ := c7_tick1
  obtain ⟨huiw2, hg2, hlock2⟩ := c7_tick2
  have hstate1 : (update inpC7 pstd sC7 sp0).1 = sC7mid := by
    show (generateXYsetpoints inpC7 pstd
      (generateAltitudeSetpoints inpC7 pstd (updateInternalWaypoints inpC7 pstd sC7))).1 = _
    rw [huiw1, hg1, gxy_lock _ _ _ hlock1]
    rfl
  have hv1 : (update inpC7 pstd sC7 sp0).2.1.vel_sp.z = some (1/50 : ℝ) := by
    show some ((generateXYsetpoints inpC7 pstd
      (generateAltitudeSetpoints inpC7 pstd
        (updateInternalWaypoints inpC7 pstd sC7))).1.vel_sp_z) = _
    rw [huiw1, hg1, gxy_lock _ _ _ hlock1]
  have hv2 : (update inpC7 pstd (update inpC7 pstd sC7 sp0).1
      (update inpC7 pstd sC7 sp0).2.1).2.1.vel_sp.z = some (1/25 : ℝ) := by
    rw [hstate1]
    show some ((generateXYsetpoints inpC7 pstd
      (generateAltitudeSetpoints inpC7 pstd
        (updateInternalWaypoints inpC7 pstd sC7mid))).1.vel_sp_z) = _
    rw [huiw2, hg2, gxy_lock _ _ _ hlock2]
  refine ⟨by rw [huiw1, hg1]; exact hlock1, hv1, hv2, ?_⟩
  intro h
  have hzz := congrArg (fun x : Setpoints => x.vel_sp.z) h
  simp only [] at hzz
  rw [hv1, hv2] at hzz
  simp only [Option.some.injEq] at hzz
  norm_num at hzz

/-- Witness facts and conclusion for the C7 amended theorem on the degenerate
resting scenario. -/
theorem lock_idempotent_update_witness :
    (inpC7w.wtype = WaypointType.loiter ∨ inpC7w.wtype = WaypointType.position) ∧
    ¬ altMovingCond inpC7w (updateInternalWaypoints inpC7w pstd sC7w) ∧
    xyLockCond inpC7w pstd
      (generateAltitudeSetpoints inpC7w pstd (updateInternalWaypoints inpC7w pstd sC7w)) ∧
    Vec2.norm (Vec2.sub (Vec3.xy inpC7w.target)
      (Vec3.xy (updateInternalWaypoints inpC7w pstd sC7w).destination)) < pstd.nav_rad ∧
    (update inpC7w pstd (update inpC7w pstd sC7w sp0).1
      (update inpC7w pstd sC7w sp0).2.1).2.1 = (update inpC7w pstd sC7w sp0).2.1 := by
  have huiw0 : updateInternalWaypoints inpC7w pstd sC7w = sC7w := by
    refine uiw_degenerate inpC7w pstd sC7w rfl rfl rfl (by norm_num [inpC7w]) ?_
    show Vec3.norm (Vec3.sub inpC7w.target inpC7w.target) ≤ 0.01
    rw [Vec3.norm_sub_self]
    norm_num
  have hz0 : ¬ altMovingCond inpC7w sC7w := by
    rintro ⟨h1, _⟩
    have h1' : |(0:ℝ) - 0| > sigmaNorm := h1
    rw [sub_zero, abs_zero] at h1'
    exact absurd h1' (by norm_num [sigmaNorm])
  have hz : ¬ altMovingCond inpC7w (updateInternalWaypoints inpC7w pstd sC7w) := by
    rw [huiw0]
    exact hz0
  have hl : xyLockCond inpC7w pstd
      (generateAltitudeSetpoints inpC7w pstd (updateInternalWaypoints inpC7w pstd sC7w)) := by
    rw [huiw0, gas_arrived inpC7w pstd sC7w hz0]
    refine Or.inl ⟨by show (0:ℝ) < 0.001; norm_num, ?_⟩
    show Vec2.norm (Vec2.sub (Vec3.xy inpC7w.target) (Vec3.xy inpC7w.target)) < pstd.nav_rad
    rw [Vec2.norm_sub_cancel]
    norm_num [pstd]
  have hd : Vec2.norm (Vec2.sub (Vec3.xy inpC7w.target)
      (Vec3.xy (updateInternalWaypoints inpC7w pstd sC7w).destination)) < pstd.nav_rad := by
    rw [huiw0]
    show Vec2.norm (Vec2.sub (Vec3.xy inpC7w.target) (Vec3.xy inpC7w.target)) < pstd.nav_rad
    rw [Vec2.norm_sub_cancel]
    norm_num [pstd]
  exact ⟨Or.inr rfl, hz, hl, hd,
    lock_idempotent_update inpC7w pstd sC7w sp0 (Or.inr rfl) hz hl hd⟩

/-! ### Land mode (C8) -/

/-- C8: in land mode `update` emits `pos_sp = (target_x, target_y, NaN)` and
`vel_sp = (NaN, NaN, land_speed)` with the NaN components untouched, and resets
the internal setpoints to the current vehicle state. -/
theorem land_mode_setpoints (inp : Inputs) (p : Params) (s : LineState)
    (sp : Setpoints) (h : inp.wtype = WaypointType.land) :
    (update inp p s sp).2.1.pos_sp = ⟨some inp.target.x, some inp.target.y, Option.none⟩ ∧
    (update inp p s sp).2.1.vel_sp = ⟨Option.none, Option.none, some p.land_speed⟩ ∧
    (update inp p s sp).1 = reset inp s ∧
    (reset inp s).pos_sp_xy = Vec3.xy inp.position ∧
    (reset inp s).vel_sp_xy = Vec3.xy inp.velocity ∧
    (reset inp s).pos_sp_z = some inp.position.z ∧
    (reset inp s).vel_sp_z = inp.velocity.z ∧
    (reset inp s).destination = inp.target ∧
    (reset inp s).origin = inp.prev_wp ∧
    (reset inp s).speed_at_target = 0 := by
  obtain ⟨pos, vel, yw, pw, tg, nw, ywp, ty, mc, dt⟩ := inp
  have h' : ty = WaypointType.land := h
  subst h'
  exact ⟨rfl, rfl, rfl, rfl, rfl, rfl, rfl, rfl, rfl, rfl⟩

/-- Witness for C8 on the concrete land-mode scenario. -/
theorem land_mode_setpoints_witness :
    inpC8.wtype = WaypointType.land ∧
      ((update inpC8 pstd sC8 sp0).2.1.pos_sp =
          ⟨some inpC8.target.x, some inpC8.target.y, Option.none⟩ ∧
        (update inpC8 pstd sC8 sp0).2.1.vel_sp =
          ⟨Option.none, Option.none, some pstd.land_speed⟩ ∧
        (update inpC8 pstd sC8 sp0).1 = reset inpC8 sC8 ∧
        (reset inpC8 sC8).pos_sp_xy = Vec3.xy inpC8.position ∧
        (reset inpC8 sC8).vel_sp_xy = Vec3.xy inpC8.velocity ∧
        (reset inpC8 sC8).pos_sp_z = some inpC8.position.z ∧
        (reset inpC8 sC8).vel_sp_z = inpC8.velocity.z ∧
        (reset inpC8 sC8).destination = inpC8.target ∧
        (reset inpC8 sC8).origin = inpC8.prev_wp ∧
        (reset inpC8 sC8).speed_at_target = 0) :=
  ⟨rfl, land_mode_setpoints inpC8 pstd sC8 sp0 rfl⟩

/-! ### Yaw warning (C9) -/

/-- Branch facts for the C9 scenario: not locked and in the accelerate branch,
for any input sharing the C9 geometry. -/
lemma c9_facts (inp : Inputs) (htarget : inp.target = ⟨100, 0, 0⟩)
    (hpos : inp.position = ⟨10, 0, 0⟩) (hcruise : inp.mc_cruise_speed = 5) :
    ¬ xyLockCond inp pstd sC9 ∧ ¬ xyDecelCond inp sC9 := by
  have h90 : |(90:ℝ)| = 90 := abs_of_nonneg (by norm_num)
  have h100 : |(100:ℝ)| = 100 := abs_of_nonneg (by norm_num)
  have hnorm : Vec2.norm (Vec2.sub (Vec3.xy inp.target) sC9.pos_sp_xy) = 90 := by
    rw [htarget]
    show Vec2.norm (Vec2.sub ⟨100, 0⟩ ⟨10, 0⟩) = 90
    unfold Vec2.sub
    rw [show Vec2.mk (100 - 10 : ℝ) (0 - 0 : ℝ) = ⟨90, 0⟩ by norm_num,
      Vec2.norm_axis, h90]
  constructor
  · intro hlock
    rcases hlock with ⟨h1, h2⟩ | ⟨h1, h2⟩
    · rw [hnorm] at h2
      rw [show pstd.nav_rad = 1/2 from rfl] at h2
      norm_num at h2
    · apply h1
      unfold hasReachedAltitude
      rw [hpos]
      show |sC9.destination.z - (0:ℝ)| < pstd.nav_rad
      rw [show sC9.destination.z = (0:ℝ) from rfl,
        show pstd.nav_rad = 1/2 from rfl]
      norm_num
  · intro hdec
    unfold xyDecelCond xyTargetThreshold at hdec
    rw [hpos, hcruise] at hdec
    rw [show sC9.destination = Vec3.mk 100 0 0 from rfl,
      show sC9.origin = Vec3.mk 0 0 0 from rfl] at hdec
    simp only [Vec3.sub, Vec3.xy] at hdec
    rw [show Vec2.mk (100 - 10 : ℝ) (0 - 0 : ℝ) = ⟨90, 0⟩ by norm_num,
      show Vec2.mk (100 - 0 : ℝ) (0 - 0 : ℝ) = ⟨100, 0⟩ by norm_num,
      Vec2.norm_axis, Vec2.norm_axis, h90, h100] at hdec
    norm_num at hdec

/-- C9: the code's yaw-finiteness guard is inverted: on the accelerate branch the
"Yaw Waypoint not finite" warning fires exactly when `yaw_wp` IS finite (here
`yaw_wp = 0`), and does not fire when `yaw_wp` is NaN; a setpoint pair is
produced in both cases. -/
theorem yaw_warning_inverted :
    Option.isSome inpC9.yaw_wp = true ∧
      (generateXYsetpoints inpC9 pstd sC9).2 = true ∧
      inpC9n.yaw_wp = Option.none ∧
      (generateXYsetpoints inpC9n pstd sC9).2 = false := by
  obtain ⟨hl, hd⟩ := c9_facts inpC9 rfl rfl rfl
  obtain ⟨hln, hdn⟩ := c9_facts inpC9n rfl rfl rfl
  refine ⟨rfl, ?_, rfl, ?_⟩
  · unfold generateXYsetpoints
    rw [if_neg hl]
    simp only [if_neg hd]
    rfl
  · unfold generateXYsetpoints
    rw [if_neg hln]
    simp only [if_neg hdn]
    rfl

/-! ### Reset and retained recovery state (C10) -/

/-- C10: `_reset` overwrites the four internal setpoints from the vehicle state
and sets origin/destination/speed_at_target from the triplet but leaves
`current_state` unchanged; a following on-segment tick with the same target is a
selector no-op (so `current_state` is not restored to none), and a later tick on
which the retained state's predicate fires again is also a no-op (the
edge-triggered entry action is suppressed). -/
theorem reset_preserves_selector_state (inp inp2 inp3 : Inputs) (p : Params)
    (s : LineState)
    (h2t : inp2.target = inp.target)
    (h2a : ¬ targetBehindCond inp2) (h2b : ¬ previousInfrontCond inp2)
    (h2c : ¬ offtrackCond inp2)
    (h3 : targetBehindCond inp3) (hcs : s.current_state = SelState.target_behind) :
    ((reset inp s).current_state = s.current_state ∧
      (reset inp s).pos_sp_xy = Vec3.xy inp.position ∧
      (reset inp s).vel_sp_xy = Vec3.xy inp.velocity ∧
      (reset inp s).pos_sp_z = some inp.position.z ∧
      (reset inp s).vel_sp_z = inp.velocity.z ∧
      (reset inp s).origin = inp.prev_wp ∧
      (reset inp s).destination = inp.target ∧
      (reset inp s).speed_at_target = 0) ∧
    updateInternalWaypoints inp2 p (reset inp s) = reset inp s ∧
    updateInternalWaypoints inp3 p (reset inp s) = reset inp s := by
  refine ⟨⟨rfl, rfl, rfl, rfl, rfl, rfl, rfl, rfl⟩, ?_, ?_⟩
  · have hds : Vec3.norm (Vec3.sub inp2.target (reset inp s).destination) = 0 := by
      have h : (reset inp s).destination = inp.target := rfl
      rw [h, ← h2t]
      exact Vec3.norm_sub_self _
    unfold updateInternalWaypoints
    rw [if_neg h2a, if_neg h2b, if_neg h2c, if_neg (by rw [hds]; norm_num)]
  · have hc : (reset inp s).current_state = SelState.target_behind := hcs
    unfold updateInternalWaypoints
    rw [if_pos h3, if_neg (by simp [hc])]

/-- The unit direction of the C10 mission leg. -/
lemma c10_u : uPrevToTarget inpC10 = ⟨1, 0⟩ := by
  have h10 : |(10:ℝ)| = 10 := abs_of_nonneg (by norm_num)
  unfold uPrevToTarget inpC10
  simp only [Vec3.sub, Vec3.xy]
  rw [show Vec2.mk (10 - 0 : ℝ) (0 - 0 : ℝ) = ⟨10, 0⟩ by norm_num]
  unfold Vec2.unitOrZero
  rw [Vec2.norm_axis, h10]
  rw [if_neg (by norm_num [sigmaSingle])]
  unfold Vec2.smul
  norm_num

/-- Selector predicate facts for the C10 witness scenario. -/
lemma c10_facts :
    ¬ targetBehindCond inpC10 ∧ ¬ previousInfrontCond inpC10 ∧
      ¬ offtrackCond inpC10 ∧ targetBehindCond inpC10b := by
  have hub : uPrevToTarget inpC10b = ⟨1, 0⟩ := c10_u
  refine ⟨?_, ?_, ?_, ?_⟩
  · intro h
    unfold targetBehindCond at h
    rw [c10_u] at h
    rw [show Vec3.xy (Vec3.sub inpC10.target inpC10.position) = ⟨5, 0⟩ by
      unfold inpC10; simp only [Vec3.sub, Vec3.xy]; norm_num] at h
    unfold Vec2.dot at h
    norm_num at h
  · intro h
    unfold previousInfrontCond at h
    rw [c10_u] at h
    rw [show Vec3.xy (Vec3.sub inpC10.position inpC10.prev_wp) = ⟨5, 0⟩ by
      unfold inpC10; simp only [Vec3.sub, Vec3.xy]; norm_num] at h
    unfold Vec2.dot at h
    norm_num at h
  · intro h
    unfold offtrackCond closestPtOnPrevTarget at h
    rw [c10_u] at h
    rw [show Vec3.xy (Vec3.sub inpC10.position inpC10.prev_wp) = ⟨5, 0⟩ by
      unfold inpC10; simp only [Vec3.sub, Vec3.xy]; norm_num] at h
    rw [show inpC10.mc_cruise_speed = 5 from rfl,
      show Vec3.xy inpC10.prev_wp = ⟨0, 0⟩ from rfl,
      show Vec3.xy inpC10.position = ⟨5, 0⟩ from rfl] at h
    unfold Vec2.dot Vec2.smul Vec2.add Vec2.sub at h
    rw [show Vec2.mk ((5:ℝ) - (0 + (5 * 1 + 0 * 0) * 1)) ((0:ℝ) - (0 + (5 * 1 + 0 * 0) * 0))
        = ⟨0, 0⟩ by norm_num] at h
    rw [Vec2.norm_axis] at h
    norm_num at h
  · unfold targetBehindCond
    rw [hub]
    rw [show Vec3.xy (Vec3.sub inpC10b.target inpC10b.position) = ⟨-10, 0⟩ by
      unfold inpC10b; simp only [Vec3.sub, Vec3.xy]; norm_num]
    unfold Vec2.dot
    norm_num

/-- Witness for C10 on the concrete scenario. -/
theorem reset_preserves_selector_state_witness :
    (inpC10.target = inpC10.target ∧ ¬ targetBehindCond inpC10 ∧
      ¬ previousInfrontCond inpC10 ∧ ¬ offtrackCond inpC10 ∧
      targetBehindCond inpC10b ∧ sC10.current_state = SelState.target_behind) ∧
    ((reset inpC10 sC10).current_state = sC10.current_state ∧
      (reset inpC10 sC10).pos_sp_xy = Vec3.xy inpC10.position ∧
      (reset inpC10 sC10).vel_sp_xy = Vec3.xy inpC10.velocity ∧
      (reset inpC10 sC10).pos_sp_z = some inpC10.position.z ∧
      (reset inpC10 sC10).vel_sp_z = inpC10.velocity.z ∧
      (reset inpC10 sC10).origin = inpC10.prev_wp ∧
      (reset inpC10 sC10).destination = inpC10.target ∧
      (reset inpC10 sC10).speed_at_target = 0) ∧
    updateInternalWaypoints inpC10 pstd (reset inpC10 sC10) = reset inpC10 sC10 ∧
    updateInternalWaypoints inpC10b pstd (reset inpC10 sC10) = reset inpC10 sC10 := by
  obtain ⟨h2a, h2b, h2c, h3⟩ := c10_facts
  exact ⟨⟨rfl, h2a, h2b, h2c, h3, rfl⟩,
    reset_preserves_selector_state inpC10 inpC10 inpC10b pstd sC10 rfl h2a h2b h2c h3 rfl⟩

end




